import Mathlib

/-!
Verification development for the chat streaming backend.

The definitions below are a shallow embedding of the backend services:
the event log store and snapshot store (`app/services/message.py`), the
stream runtime (`app/services/streaming/runtime.py` with the accumulator
from `app/services/streaming/types.py`), the follow-up queue store
(`app/services/queue.py`), the cancellation registry
(`app/services/streaming/cancellation.py`), the permission registry
(`app/services/permission_manager.py`) and the scheduler
(`app/services/scheduler.py`).  Database tables and the KV store are
explicit state records; fallible operations return `Except`; wall-clock
and monotonic instants are rationals; machine floats of the source are
modelled as exact rationals.
-/

namespace Claudex

abbrev ChatId := Nat
abbrev MessageId := Nat
abbrev StreamId := Nat

/-- A stream event payload: a flat JSON object of string fields.  The
runtime only ever passes dicts of scalars here; nesting is immaterial to
every property proved below. -/
abbrev Payload := List (String × String)

inductive MessageRole where
  | user
  | assistant
deriving DecidableEq, Repr

inductive MessageStreamStatus where
  | in_progress
  | completed
  | interrupted
  | failed
deriving DecidableEq, Repr

/-- `MessageStreamStatus.value` as used by the runtime when it emits the
terminal frame. -/
def MessageStreamStatus.value : MessageStreamStatus → String
  | .in_progress => "in_progress"
  | .completed => "completed"
  | .interrupted => "interrupted"
  | .failed => "failed"

/-- JSON-like values, used for the persisted `content_render` documents. -/
inductive RVal where
  | rstr (s : String)
  | rlist (xs : List RVal)
  | robj (fields : List (String × RVal))

/-- A persisted `content_render` document: a JSON object. -/
abbrev Render := List (String × RVal)

/-- `SNAPSHOT_EVENT_KINDS` from `app/services/streaming/runtime.py`. -/
def SNAPSHOT_EVENT_KINDS : List String :=
  ["assistant_text", "assistant_thinking", "tool_started", "tool_completed",
   "tool_failed", "prompt_suggestions", "system", "permission_request"]

/-- `StreamSnapshotAccumulator` from `app/services/streaming/types.py`:
the in-memory coalesced state of one assistant message.  Each entry of
`events` is the dict `{"type": kind, **payload}`, stored as the pair
`(kind, payload)`; the runtime strips any `type` key from the payload
before it reaches the accumulator. -/
structure StreamSnapshotAccumulator where
  events : List (String × Payload) := []
  text_parts : List String := []
deriving DecidableEq, Repr

/-- `StreamSnapshotAccumulator.add_event`. -/
def StreamSnapshotAccumulator.add_event (acc : StreamSnapshotAccumulator)
    (kind : String) (payload : Payload) : StreamSnapshotAccumulator :=
  let acc1 :=
    if kind = "assistant_text" then
      match payload.lookup "text" with
      | some t => if t ≠ "" then { acc with text_parts := acc.text_parts ++ [t] } else acc
      | none => acc
    else acc
  { acc1 with events := acc1.events ++ [(kind, payload)] }

/-- One accumulator event rendered as the JSON object `{"type": kind, **payload}`. -/
def eventObj (kind : String) (payload : Payload) : RVal :=
  .robj (("type", .rstr kind) :: payload.map (fun kv => (kv.1, .rstr kv.2)))

/-- `StreamSnapshotAccumulator.to_render`: the `content_render` document the
runtime persists at snapshot writes.  Note the source builds only the
`events` key. -/
def StreamSnapshotAccumulator.to_render (acc : StreamSnapshotAccumulator) : Render :=
  [("events", .rlist (acc.events.map (fun e => eventObj e.1 e.2)))]

/-- `StreamSnapshotAccumulator.content_text`. -/
def StreamSnapshotAccumulator.content_text (acc : StreamSnapshotAccumulator) : String :=
  String.join acc.text_parts

/-! ## Event log store (`MessageService`, `app/services/message.py`) -/

/-- A `MessageEvent` row. -/
structure MessageEvent where
  chat_id : ChatId
  message_id : MessageId
  stream_id : StreamId
  seq : Nat
  event_type : String
  render_payload : Payload
  audit_payload : Option Payload
deriving DecidableEq, Repr

/-- The error taxonomy of `MessageService` relevant here
(`MessageException` with `ErrorCode.CHAT_NOT_FOUND`). -/
inductive MessageError where
  | chatNotFound (chat_id : ChatId)
deriving DecidableEq, Repr

/-- The durable state the event-log operations touch: the `last_event_seq`
counter of every existing chat, and the `message_events` table. -/
structure LogState where
  chats : ChatId → Option Nat
  events : List MessageEvent

/-- Point update of a chat counter. -/
def setChat (f : ChatId → Option Nat) (c : ChatId) (v : Nat) : ChatId → Option Nat :=
  fun x => if x = c then some v else f x

/-- `MessageService.append_event_with_next_seq`: in one transaction,
atomically bump `Chat.last_event_seq`, returning the new value, and insert
one `MessageEvent` row carrying it; raise `ChatNotFound` (rolling back)
when the `UPDATE ... RETURNING` matches no chat row. -/
def append_event_with_next_seq (chat_id : ChatId) (message_id : MessageId)
    (stream_id : StreamId) (event_type : String) (render_payload : Payload)
    (audit_payload : Option Payload) (s : LogState) :
    Except MessageError (Nat × LogState) :=
  match s.chats chat_id with
  | none => .error (.chatNotFound chat_id)
  | some last =>
    let next_seq := last + 1
    .ok (next_seq,
      { chats := setChat s.chats chat_id next_seq,
        events := s.events ++
          [{ chat_id := chat_id, message_id := message_id, stream_id := stream_id,
             seq := next_seq, event_type := event_type,
             render_payload := render_payload, audit_payload := audit_payload }] })

/-- `MessageService.append_events`: bulk-insert fully formed event rows
(each already carrying its `seq`); no counter is touched. -/
def append_events (rows : List MessageEvent) (s : LogState) : LogState :=
  { s with events := s.events ++ rows }

/-- One buffered stream event, as held in
`ChatStreamRuntime._event_buffer`: `(kind, render_payload, audit_payload)`. -/
abbrev BufEv := String × Payload × Option Payload

/-- The rows a batch append builds: the i-th buffered event receives
seq `start + 1 + i`. -/
def batchRows (chat_id : ChatId) (message_id : MessageId) (stream_id : StreamId)
    (start : Nat) : List BufEv → List MessageEvent
  | [] => []
  | e :: rest =>
    { chat_id := chat_id, message_id := message_id, stream_id := stream_id,
      seq := start + 1, event_type := e.1,
      render_payload := e.2.1, audit_payload := e.2.2 } ::
    batchRows chat_id message_id stream_id (start + 1) rest

/-- Modelled from the spec: `MessageService.append_events_batch` is invoked
by `ChatStreamRuntime._flush_event_buffer` but its definition is not among
the sources.  Per the spec, `append_batch(chat_id, message_id, stream_id,
events[]) → last_seq` is "equivalent to N calls but allocates N consecutive
seqs in one round-trip": it advances `Chat.last_event_seq` by N, failing
with `ChatNotFound` when the chat is absent, and inserts the rows through
the bulk path `append_events` with the N freshly allocated consecutive
seqs, returning the last one. -/
def append_events_batch (chat_id : ChatId) (message_id : MessageId)
    (stream_id : StreamId) (evs : List BufEv) (s : LogState) :
    Except MessageError (Nat × LogState) :=
  match s.chats chat_id with
  | none => .error (.chatNotFound chat_id)
  | some last =>
    let last_seq := last + evs.length
    let rows := batchRows chat_id message_id stream_id last evs
    .ok (last_seq,
      { append_events rows s with chats := setChat s.chats chat_id last_seq })

/-- N successive `append_event_with_next_seq` calls, failing fast like the
sequential runtime would. -/
def append_one_by_one (chat_id : ChatId) (message_id : MessageId)
    (stream_id : StreamId) (evs : List BufEv) (s : LogState) :
    Except MessageError LogState :=
  match evs with
  | [] => .ok s
  | e :: rest =>
    match append_event_with_next_seq chat_id message_id stream_id e.1 e.2.1 e.2.2 s with
    | .error err => .error err
    | .ok (_, s2) => append_one_by_one chat_id message_id stream_id rest s2

/-- One append request, for reasoning about arbitrary interleavings of
appends across chats. -/
structure AppendReq where
  chat_id : ChatId
  message_id : MessageId
  stream_id : StreamId
  event_type : String
  render_payload : Payload
  audit_payload : Option Payload

/-- Run a sequence of append requests; a failed append (absent chat) leaves
the state unchanged, exactly as the rolled-back transaction does. -/
def runAppends (reqs : List AppendReq) (s : LogState) : LogState :=
  reqs.foldl
    (fun st r =>
      match append_event_with_next_seq r.chat_id r.message_id r.stream_id
          r.event_type r.render_payload r.audit_payload st with
      | .ok (_, st2) => st2
      | .error _ => st) s

/-- Some event row for chat `c` carries sequence number `q`. -/
def hasSeq (s : LogState) (c : ChatId) (q : Nat) : Prop :=
  ∃ e ∈ s.events, e.chat_id = c ∧ e.seq = q

/-- The gap-free invariant: for every chat present in the store, the set of
seq values of its events is exactly `{1..last_event_seq}`. -/
def gapFree (s : LogState) : Prop :=
  ∀ c l, s.chats c = some l → ∀ q, hasSeq s c q ↔ (1 ≤ q ∧ q ≤ l)

/-! ## Snapshot store: the `messages` table (`MessageService`) -/

/-- A `Message` row (the columns the specified operations touch). -/
structure Message where
  chat_id : ChatId
  content_text : String
  content_render : Render
  last_seq : Nat
  active_stream_id : Option StreamId
  role : MessageRole
  model_id : Option String
  stream_status : Option MessageStreamStatus
  total_cost_usd : Option ℚ
  checkpoint_id : Option String

/-- The `messages` table, keyed by message id. -/
abbrev MsgStore := MessageId → Option Message

/-- Point update of a message row. -/
def setMsg (f : MsgStore) (i : MessageId) (m : Message) : MsgStore :=
  fun x => if x = i then some m else f x

/-- `MessageService._extract_user_text_content`: whitespace-only content
becomes `""`; content that does not start with a JSON bracket is returned
unchanged; content that does is decoded and has the text of its
`user_text` items extracted, falling back to the raw content on a decode
failure.  The JSON branch is kept as an explicit parameter `extractJson`
of the model, so every theorem below holds for each of its behaviours. -/
def extract_user_text_content (extractJson : String → String) (content : String) : String :=
  let stripped := content.trim
  if stripped = "" then ""
  else if ¬(stripped.startsWith "[" ∨ stripped.startsWith "\x7b") then content
  else extractJson content

/-- `MessageService.create_message` (without the attachment side table,
which no claim touches): build the initial snapshot columns for the role
and insert a fresh row under `new_id`.  Returns the created row and the
updated table. -/
def create_message (extractJson : String → String) (store : MsgStore)
    (new_id : MessageId) (chat_id : ChatId) (content : String) (role : MessageRole)
    (model_id : Option String) (stream_status : Option MessageStreamStatus) :
    Message × MsgStore :=
  let is_assistant := role = MessageRole.assistant
  let content_text :=
    if is_assistant then "" else extract_user_text_content extractJson content
  let content_render : Render :=
    if ¬is_assistant ∧ content_text ≠ "" then
      [("events", .rlist [eventObj "user_text" [("text", content_text)]]),
       ("segments", .rlist [])]
    else
      [("events", .rlist []), ("segments", .rlist [])]
  let message : Message :=
    { chat_id := chat_id, content_text := content_text,
      content_render := content_render, last_seq := 0,
      active_stream_id := none, role := role, model_id := model_id,
      stream_status := stream_status, total_cost_usd := none,
      checkpoint_id := none }
  (message, setMsg store new_id message)

/-- `MessageService.update_message_snapshot`: a single `UPDATE` keyed by
message id writing `content_text`, `content_render`,
`last_seq := greatest(current, new)` and `active_stream_id`, plus
`stream_status` / `total_cost_usd` only when provided; when the row count
is zero the call returns `None` and commits nothing.  Returns the
re-selected row and the updated table. -/
def update_message_snapshot (store : MsgStore) (message_id : MessageId)
    (content_text : String) (content_render : Render) (last_seq : Nat)
    (active_stream_id : Option StreamId)
    (stream_status : Option MessageStreamStatus) (total_cost_usd : Option ℚ) :
    Option Message × MsgStore :=
  match store message_id with
  | none => (none, store)
  | some m =>
    let m2 : Message :=
      { m with
        content_text := content_text,
        content_render := content_render,
        last_seq := max m.last_seq last_seq,
        active_stream_id := active_stream_id,
        stream_status := match stream_status with
          | some st => some st
          | none => m.stream_status,
        total_cost_usd := match total_cost_usd with
          | some v => some v
          | none => m.total_cost_usd }
    (some m2, setMsg store message_id m2)

/-! ## Follow-up queue store (`QueueService`, `app/services/queue.py`) -/

/-- The queued follow-up JSON stored under `chat:{id}:queue`. -/
structure QueuedMessage where
  id : Nat
  content : String
  model_id : String
  permission_mode : String
  thinking_mode : Option String
  attachments : Option (List String)
deriving DecidableEq, Repr

/-- The response `QueueService.upsert_message` returns. -/
structure QueueUpsertResponse where
  id : Nat
  created : Bool
  content : String
  attachments : Option (List String)
deriving DecidableEq, Repr

/-- The KV queue keys: at most one entry per chat. -/
abbrev QueueStore := ChatId → Option QueuedMessage

/-- Point update of a queue key. -/
def setQueue (f : QueueStore) (c : ChatId) (v : Option QueuedMessage) : QueueStore :=
  fun x => if x = c then v else f x

/-- Python truthiness of the optional `attachments` argument. -/
def attTruthy : Option (List String) → Bool
  | some l => decide (l ≠ [])
  | none => false

/-- `QueueService.upsert_message`: one successful compare-and-set attempt
over the chat's key.  If the key is empty a fresh entry is created under
`new_id`; otherwise the existing content gets the new content appended
after a `"\n"` separator, `model_id` and `permission_mode` are
overwritten, `thinking_mode` only when the new value is non-null, and
non-empty new attachments are concatenated onto the existing ones. -/
def upsert_message (q : QueueStore) (chat_id : ChatId) (new_id : Nat)
    (content : String) (model_id : String) (permission_mode : String)
    (thinking_mode : Option String) (attachments : Option (List String)) :
    QueueUpsertResponse × QueueStore :=
  match q chat_id with
  | some data =>
    let data1 : QueuedMessage :=
      { data with
        content := data.content ++ "\n" ++ content,
        model_id := model_id,
        permission_mode := permission_mode,
        thinking_mode := match thinking_mode with
          | some tm => some tm
          | none => data.thinking_mode }
    let data2 : QueuedMessage :=
      if attTruthy attachments then
        { data1 with
          attachments := some ((data1.attachments.getD []) ++ (attachments.getD [])) }
      else data1
    ({ id := data2.id, created := false, content := data2.content,
       attachments := data2.attachments },
     setQueue q chat_id (some data2))
  | none =>
    let message_data : QueuedMessage :=
      { id := new_id, content := content, model_id := model_id,
        permission_mode := permission_mode, thinking_mode := thinking_mode,
        attachments := attachments }
    ({ id := new_id, created := true, content := content,
       attachments := attachments },
     setQueue q chat_id (some message_data))

/-- `QueueService.pop_next_message`: a single atomic `GETDEL` of the
chat's key. -/
def pop_next_message (q : QueueStore) (chat_id : ChatId) :
    Option QueuedMessage × QueueStore :=
  (q chat_id, setQueue q chat_id none)

/-- One upsert call's arguments (the generated id plus the user-supplied
fields). -/
structure UpsertCall where
  new_id : Nat
  content : String
  model_id : String
  permission_mode : String
  thinking_mode : Option String
  attachments : Option (List String)

/-- A sequence of upsert calls against the same chat with no intervening
pop. -/
def applyUpserts (chat_id : ChatId) (calls : List UpsertCall) (q : QueueStore) :
    QueueStore :=
  calls.foldl
    (fun st c =>
      (upsert_message st chat_id c.new_id c.content c.model_id
        c.permission_mode c.thinking_mode c.attachments).2) q

/-! ## Stream runtime (`ChatStreamRuntime`, `app/services/streaming/runtime.py`) -/

/-- `SENSITIVE_KEY_PARTS` from `app/services/streaming/types.py`. -/
def SENSITIVE_KEY_PARTS : List String :=
  ["token", "api_key", "secret", "password", "authorization", "cookie"]

/-- `StreamEnvelope.sanitize_payload` on a flat payload: any field whose
key contains a sensitive part is replaced by `"[REDACTED]"`.  (The digest
wrapper the source puts around over-long strings produces a nested object
and is outside the flat payload model; no claim inspects audit values.) -/
def sanitize_payload (p : Payload) : Payload :=
  p.map (fun kv =>
    if SENSITIVE_KEY_PARTS.any (fun part => decide (part.toList <:+: kv.1.toLower.toList))
    then (kv.1, "[REDACTED]") else kv)

/-- The per-stream identifiers a `ChatStreamRuntime` is constructed with. -/
structure RuntimeCfg where
  chat_id : ChatId
  stream_id : StreamId
  assistant_message_id : Option MessageId

/-- The runtime's in-memory mutable fields. -/
structure RuntimeState where
  snapshot : StreamSnapshotAccumulator
  event_buffer : List BufEv
  pending_since_flush : Nat
  last_flush_at : ℚ
  last_seq : Nat

/-- A background stream handed off through
`ChatStreamRuntime.start_background_chat` (the `ChatStreamRequest` fields
the follow-up handoff determines). -/
structure StartedStream where
  chat_id : ChatId
  prompt : String
  model_id : String
  permission_mode : String
  thinking_mode : Option String
  assistant_message_id : MessageId

/-- Everything a running stream can touch: the event log, the `messages`
table, the KV queue keys, the set of spawned background streams and the
runtime's own state. -/
structure StreamWorld where
  log : LogState
  messages : MsgStore
  queue : QueueStore
  started : List StartedStream
  rt : RuntimeState

/-- `ChatStreamRuntime._flush_event_buffer`: a no-op when the buffer is
empty or the runtime has no assistant message; otherwise batch-append the
buffered events, clear the buffer and record the returned last seq. -/
def flush_event_buffer (cfg : RuntimeCfg) (w : StreamWorld) :
    Except MessageError StreamWorld :=
  match cfg.assistant_message_id with
  | none => .ok w
  | some mid =>
    match w.rt.event_buffer with
    | [] => .ok w
    | _ :: _ =>
      match append_events_batch cfg.chat_id mid cfg.stream_id w.rt.event_buffer w.log with
      | .error e => .error e
      | .ok (seq, log2) =>
        .ok { w with
                log := log2,
                rt := { w.rt with event_buffer := [], last_seq := seq } }

/-- `ChatStreamRuntime.emit_event`: snapshot-kind events (with
`apply_snapshot`) are buffered and applied to the in-memory accumulator;
control events flush the buffer and go through
`append_event_with_next_seq` immediately.  (The advisory Redis publish is
best-effort and carries no state.) -/
def emit_event (cfg : RuntimeCfg) (kind : String) (payload : Payload)
    (apply_snapshot : Bool) (w : StreamWorld) :
    Except MessageError (Nat × StreamWorld) :=
  match cfg.assistant_message_id with
  | none => .ok (0, w)
  | some mid =>
    let audit := some (sanitize_payload payload)
    if apply_snapshot ∧ kind ∈ SNAPSHOT_EVENT_KINDS then
      .ok (0, { w with rt :=
        { w.rt with
          event_buffer := w.rt.event_buffer ++ [(kind, payload, audit)],
          snapshot := w.rt.snapshot.add_event kind payload,
          pending_since_flush := w.rt.pending_since_flush + 1 } })
    else
      match flush_event_buffer cfg w with
      | .error e => .error e
      | .ok w1 =>
        match append_event_with_next_seq cfg.chat_id mid cfg.stream_id kind
            payload audit w1.log with
        | .error e => .error e
        | .ok (seq, log2) =>
          .ok (seq, { w1 with log := log2, rt := { w1.rt with last_seq := seq } })

/-- The write a snapshot flush performs once past the cadence guards:
flush the event buffer, write the coalesced snapshot through
`update_message_snapshot`, then reset the watermark and the flush clock. -/
def flush_snapshot_write (cfg : RuntimeCfg) (mid : MessageId) (now : ℚ)
    (w : StreamWorld) : Except MessageError StreamWorld :=
  match flush_event_buffer cfg w with
  | .error e => .error e
  | .ok w1 =>
    let messages2 :=
      (update_message_snapshot w1.messages mid
        w1.rt.snapshot.content_text w1.rt.snapshot.to_render
        w1.rt.last_seq (some cfg.stream_id) none none).2
    .ok { w1 with
            messages := messages2,
            rt := { w1.rt with pending_since_flush := 0, last_flush_at := now } }

/-- `ChatStreamRuntime._flush_snapshot`: when not forced, skip when
nothing accumulated since the last flush, or when less than 200 ms have
elapsed and fewer than 24 events are pending. -/
def flush_snapshot (cfg : RuntimeCfg) (force : Bool) (now : ℚ) (w : StreamWorld) :
    Except MessageError StreamWorld :=
  match cfg.assistant_message_id with
  | none => .ok w
  | some mid =>
    if ¬force then
      let elapsed_ms := (now - w.rt.last_flush_at) * 1000
      if w.rt.pending_since_flush = 0 then .ok w
      else if elapsed_ms < 200 ∧ w.rt.pending_since_flush < 24 then .ok w
      else flush_snapshot_write cfg mid now w
    else flush_snapshot_write cfg mid now w

/-- `ChatStreamRuntime._save_final_snapshot`: flush the buffer and write
the terminal snapshot with a null `active_stream_id`, the terminal
status, and the agent's total cost. -/
def save_final_snapshot (cfg : RuntimeCfg) (status : MessageStreamStatus)
    (cost : Option ℚ) (w : StreamWorld) : Except MessageError StreamWorld :=
  match cfg.assistant_message_id with
  | none => .ok w
  | some mid =>
    match flush_event_buffer cfg w with
    | .error e => .error e
    | .ok w1 =>
      let messages2 :=
        (update_message_snapshot w1.messages mid
          w1.rt.snapshot.content_text w1.rt.snapshot.to_render
          w1.rt.last_seq none (some status) cost).2
      .ok { w1 with messages := messages2 }

/-- `ChatStreamRuntime._create_checkpoint`: best-effort; when the sandbox
produced a checkpoint id (`chk = some _`) it is stored on the assistant
message. -/
def create_checkpoint (cfg : RuntimeCfg) (chk : Option String) (w : StreamWorld) :
    StreamWorld :=
  match cfg.assistant_message_id, chk with
  | some mid, some cp =>
    match w.messages mid with
    | some m => { w with messages := setMsg w.messages mid { m with checkpoint_id := some cp } }
    | none => w
  | _, _ => w

/-- `ChatStreamRuntime._process_next_queued` (success path; the source
catches any exception and reports `False`, a branch unreachable in the
chat-present worlds quantified over below): atomically pop the chat's
follow-up; when present, create the user and assistant rows under the
fresh ids `u` and `a`, emit a `queue_processing` control event, and hand
the follow-up off as a new background stream. -/
def process_next_queued (extractJson : String → String) (cfg : RuntimeCfg)
    (u a : MessageId) (w : StreamWorld) :
    Except MessageError (Bool × StreamWorld) :=
  let popped := pop_next_message w.queue cfg.chat_id
  match popped.1 with
  | none => .ok (false, { w with queue := popped.2 })
  | some next_msg =>
    let userRes := create_message extractJson w.messages u cfg.chat_id
      next_msg.content MessageRole.user none none
    let asstRes := create_message extractJson userRes.2 a cfg.chat_id
      "" MessageRole.assistant (some next_msg.model_id)
      (some MessageStreamStatus.in_progress)
    let payload : Payload :=
      [("queued_message_id", toString next_msg.id),
       ("user_message_id", toString u),
       ("assistant_message_id", toString a),
       ("content", next_msg.content),
       ("model_id", next_msg.model_id)]
    let w1 := { w with queue := popped.2, messages := asstRes.2 }
    match emit_event cfg "queue_processing" payload false w1 with
    | .error e => .error e
    | .ok (_, w2) =>
      .ok (true, { w2 with started := w2.started ++
        [{ chat_id := cfg.chat_id, prompt := next_msg.content,
           model_id := next_msg.model_id,
           permission_mode := next_msg.permission_mode,
           thinking_mode := next_msg.thinking_mode,
           assistant_message_id := a }] })

/-- `ChatStreamRuntime._complete_stream`: write the final snapshot; on
`completed`, checkpoint, hand off any queued follow-up — emitting
`queue_processing` instead of the final `complete` frame — or, with no
follow-up, emit `complete`; on the other terminal statuses emit
`cancelled` or `complete`.  (`_emit_final_context_usage` only refreshes
the externally cached usage figures and touches none of the state
modelled here.) -/
def complete_stream (extractJson : String → String) (cfg : RuntimeCfg)
    (status : MessageStreamStatus) (cost : Option ℚ) (chk : Option String)
    (u a : MessageId) (w : StreamWorld) : Except MessageError StreamWorld :=
  match save_final_snapshot cfg status cost w with
  | .error e => .error e
  | .ok w1 =>
    if status = MessageStreamStatus.completed then
      let w2 := create_checkpoint cfg chk w1
      match process_next_queued extractJson cfg u a w2 with
      | .error e => .error e
      | .ok (queue_processed, w3) =>
        if queue_processed then .ok w3
        else
          match emit_event cfg "complete" [("status", "completed")] false w3 with
          | .error e => .error e
          | .ok (_, w4) => .ok w4
    else
      let terminal_kind :=
        if status = MessageStreamStatus.interrupted then "cancelled" else "complete"
      match emit_event cfg terminal_kind [("status", status.value)] false w1 with
      | .error e => .error e
      | .ok (_, w2) => .ok w2

/-! ## Cancellation registry (`CancellationHandler`,
`app/services/streaming/cancellation.py`) -/

/-- A per-chat live cancel event.  `token` models Python object identity
(`event is current`); `isSet` the asyncio event's flag. -/
structure CancelEvent where
  token : Nat
  isSet : Bool
deriving DecidableEq, Repr

/-- The class-level registries: `_events` and `_pending` (deadline of the
short-lived pending-cancel flag, on the monotonic clock). -/
structure CancelState where
  events : ChatId → Option CancelEvent
  pending : ChatId → Option ℚ

/-- `CancellationHandler._prune_pending`: drop pending flags whose
deadline has passed. -/
def prune_pending (now : ℚ) (s : CancelState) : CancelState :=
  { s with pending := fun c =>
      match s.pending c with
      | some deadline => if deadline < now then none else some deadline
      | none => none }

/-- `CancellationHandler.register`: prune, create a fresh event (already
set when a live pending flag exists), pop the pending flag, and install
the event.  `token` is the fresh identity of the new event. -/
def cancel_register (now : ℚ) (token : Nat) (chat_id : ChatId) (s : CancelState) :
    CancelEvent × CancelState :=
  let s1 := prune_pending now s
  let event : CancelEvent :=
    { token := token,
      isSet := match s1.pending chat_id with
        | some deadline => decide (deadline ≥ now)
        | none => false }
  (event,
   { events := fun c => if c = chat_id then some event else s1.events c,
     pending := fun c => if c = chat_id then none else s1.pending c })

/-- `CancellationHandler.unregister`: when no registration exists, pop the
pending flag and return; otherwise remove the registration when the
supplied event is the current one (or none was supplied), and pop the
pending flag. -/
def cancel_unregister (chat_id : ChatId) (event : Option Nat) (s : CancelState) :
    CancelState :=
  match s.events chat_id with
  | none => { s with pending := fun c => if c = chat_id then none else s.pending c }
  | some current =>
    let events2 : ChatId → Option CancelEvent :=
      if event = none ∨ event = some current.token then
        fun c => if c = chat_id then none else s.events c
      else s.events
    { events := events2,
      pending := fun c => if c = chat_id then none else s.pending c }

/-- `CancellationHandler.request_cancel`: prune, then set the live event
when registered, else record a pending flag expiring after the configured
TTL. -/
def request_cancel (now ttl : ℚ) (chat_id : ChatId) (s : CancelState) : CancelState :=
  let s1 := prune_pending now s
  match s1.events chat_id with
  | none =>
    let pending_ttl := max ttl 0
    { s1 with pending := fun c =>
        if c = chat_id then some (now + pending_ttl) else s1.pending c }
  | some event =>
    { s1 with events := fun c =>
        if c = chat_id then some { event with isSet := true } else s1.events c }

/-- `CancellationHandler.is_cancelled`: true when the live event is set or
a non-expired pending flag exists. -/
def is_cancelled (now : ℚ) (chat_id : ChatId) (s : CancelState) : Bool :=
  let s1 := prune_pending now s
  match s1.events chat_id with
  | some event => if event.isSet then true else
      match s1.pending chat_id with
      | some deadline => decide (deadline ≥ now)
      | none => false
  | none =>
    match s1.pending chat_id with
    | some deadline => decide (deadline ≥ now)
    | none => false

/-! ## Permission registry (`PermissionManager`,
`app/services/permission_manager.py`) -/

/-- The out-of-band decision stored by `PermissionManager.respond`. -/
structure PermResponse where
  approved : Bool
  alternative_instruction : Option String
  user_answers : Option (List (String × String))
deriving DecidableEq, Repr

/-- One entry of the in-process `_pending` table.  `event_fires_at` models
the waiter side of the entry's asyncio event: the instant at which
`respond` sets it (`none` when no response ever arrives). -/
structure PendingRequest where
  expires_at : ℚ
  response : Option PermResponse
  event_fires_at : Option ℚ

abbrev ReqId := Nat

abbrev PermTable := ReqId → Option PendingRequest

/-- `PermissionManager._prune_expired`: drop entries with
`expires_at ≤ now`. -/
def prune_expired (now : ℚ) (tbl : PermTable) : PermTable :=
  fun r => match tbl r with
    | some p => if p.expires_at ≤ now then none else some p
    | none => none

/-- `PermissionManager.wait_for_response`, with its real-time behaviour
made explicit: returns the result, the instant at which the call returns,
and the table afterwards.  The call prunes, looks the request up, bounds
the wait by `max (min timeout remaining_ttl) 0`, and then either observes
the event fire inside the window — popping the entry and returning its
response — or times out, popping the entry and returning null. -/
def wait_for_response (tbl : PermTable) (rid : ReqId) (now timeout : ℚ) :
    Option PermResponse × ℚ × PermTable :=
  let tbl1 := prune_expired now tbl
  match tbl1 rid with
  | none => (none, now, tbl1)
  | some pending =>
    let remaining_ttl := pending.expires_at - now
    if remaining_ttl ≤ 0 then
      (none, now, fun r => if r = rid then none else tbl1 r)
    else
      let wait_timeout := max (min timeout remaining_ttl) 0
      match pending.event_fires_at with
      | some t =>
        if t ≤ now + wait_timeout then
          (pending.response, max t now, fun r => if r = rid then none else tbl1 r)
        else
          (none, now + wait_timeout, fun r => if r = rid then none else tbl1 r)
      | none =>
        (none, now + wait_timeout, fun r => if r = rid then none else tbl1 r)

/-! ## Scheduler (`SchedulerService`, `app/services/scheduler.py`)

Local wall-clock datetimes are explicit calendar fields; `monthrange` is
the Gregorian month-length table; the user's zone is a fixed UTC offset
(the zone database's DST transitions are outside this model);
`astimezone` is the corresponding shift of the absolute second count. -/

structure LocalDT where
  year : Nat
  month : Nat
  day : Nat
  hour : Nat
  minute : Nat
  second : Nat
deriving DecidableEq, Repr

/-- `calendar.isleap`. -/
def isLeap (y : Nat) : Bool :=
  (y % 4 = 0 && y % 100 != 0) || y % 400 = 0

/-- `calendar.monthrange(y, m)[1]`: the number of days of month `m` of
year `y` (0 outside 1..12). -/
def daysInMonth (y : Nat) : Nat → Nat
  | 1 => 31
  | 2 => if isLeap y then 29 else 28
  | 3 => 31
  | 4 => 30
  | 5 => 31
  | 6 => 30
  | 7 => 31
  | 8 => 31
  | 9 => 30
  | 10 => 31
  | 11 => 30
  | 12 => 31
  | _ => 0

def daysInYear (y : Nat) : Nat := if isLeap y then 366 else 365

/-- Days in years `0..y-1` of the proleptic Gregorian calendar. -/
def daysBeforeYear : Nat → Nat
  | 0 => 0
  | y + 1 => daysBeforeYear y + daysInYear y

/-- Days of year `y` strictly before month `m`. -/
def daysBeforeMonth (y : Nat) : Nat → Nat
  | 0 => 0
  | m + 1 => daysBeforeMonth y m + daysInMonth y m

/-- Day number of a date (day 0 is 0000-01-01). -/
def toDays (d : LocalDT) : Nat :=
  daysBeforeYear d.year + daysBeforeMonth d.year d.month + (d.day - 1)

/-- Second number of a local datetime. -/
def toSecs (d : LocalDT) : Nat :=
  toDays d * 86400 + d.hour * 3600 + d.minute * 60 + d.second

/-- The instant of a local datetime on the UTC second line, for a zone
`offset` seconds east of UTC (`astimezone(timezone.utc)`). -/
def toUtcSecs (d : LocalDT) (offset : Int) : Int :=
  (toSecs d : Int) - offset

/-- `datetime.weekday()`: Monday is 0.  0000-01-01 of the proleptic
Gregorian calendar is a Saturday. -/
def weekday (d : LocalDT) : Nat := (toDays d + 5) % 7

/-- A well-formed calendar datetime. -/
def ValidDT (d : LocalDT) : Prop :=
  1 ≤ d.month ∧ d.month ≤ 12 ∧ 1 ≤ d.day ∧ d.day ≤ daysInMonth d.year d.month ∧
    d.hour ≤ 23 ∧ d.minute ≤ 59 ∧ d.second ≤ 59

instance (d : LocalDT) : Decidable (ValidDT d) := by
  unfold ValidDT; infer_instance

/-- A well-formed calendar date (the time fields unconstrained). -/
def DateValid (d : LocalDT) : Prop :=
  1 ≤ d.month ∧ d.month ≤ 12 ∧ 1 ≤ d.day ∧ d.day ≤ daysInMonth d.year d.month

/-- The next calendar day (`date + timedelta(days=1)`). -/
def next_day (d : LocalDT) : LocalDT :=
  if d.day < daysInMonth d.year d.month then { d with day := d.day + 1 }
  else if d.month < 12 then { d with month := d.month + 1, day := 1 }
  else { d with year := d.year + 1, month := 1, day := 1 }

/-- `datetime + timedelta(days=n)` (with a fixed-offset zone, wall-clock
day addition is absolute-time day addition). -/
def add_days (d : LocalDT) : Nat → LocalDT
  | 0 => d
  | n + 1 => next_day (add_days d n)

/-- `datetime.replace(hour=h, minute=m, second=s, microsecond=0)`. -/
def replace_time (d : LocalDT) (h m s : Nat) : LocalDT :=
  { d with hour := h, minute := m, second := s }

inductive RecurrenceType where
  | once
  | daily
  | weekly
  | monthly
deriving DecidableEq, Repr

/-- `SchedulerException` kinds raised by the embedded operations. -/
inductive SchedulerErr where
  | invalidTimeFormat
  | invalidTimeValue
  | weeklyDayRequired
  | monthlyDayRequired
deriving DecidableEq, Repr

/-- Split a character list on a separator character — the behaviour of
`value.split(sep)` for a one-character separator. -/
def splitOnChar (sep : Char) : List Char → List (List Char)
  | [] => [[]]
  | c :: cs =>
    match splitOnChar sep cs with
    | [] => if c = sep then [[], []] else [[c]]
    | r :: rs => if c = sep then [] :: r :: rs else (c :: r) :: rs

def digitsToNatAux (acc : Nat) : List Char → Option Nat
  | [] => some acc
  | c :: cs =>
    if c.isDigit then digitsToNatAux (acc * 10 + (c.toNat - 48)) cs else none

/-- A non-empty all-digit character list read as a decimal numeral. -/
def digitsToNat : List Char → Option Nat
  | [] => none
  | c :: cs => digitsToNatAux 0 (c :: cs)

/-- Python's `int()` on an optionally-signed decimal numeral (its
tolerance of surrounding whitespace and underscores is out of scope: a
value rejected here raises in the source too or is never produced by the
API's time format). -/
def parseInt : List Char → Option Int
  | '-' :: cs => (digitsToNat cs).map (fun n => -(n : Int))
  | cs => (digitsToNat cs).map (fun n => (n : Int))

/-- `SchedulerService._parse_time`: split `"HH:MM[:SS]"` on `":"`, require
at least two numeric parts (Python's `int` failing on a non-numeric part
is a failure here too), read the seconds only from an exactly three-part
value, and range-check the fields. -/
def parse_time (value : String) : Except SchedulerErr (Nat × Nat × Nat) :=
  let parts := splitOnChar ':' value.toList
  if parts.length < 2 then .error .invalidTimeFormat
  else
    match (parts.get? 0).bind parseInt, (parts.get? 1).bind parseInt,
        (if parts.length = 3 then (parts.get? 2).bind parseInt else some 0) with
    | some hour, some minute, some second =>
      if ¬(0 ≤ hour ∧ hour ≤ 23) ∨ ¬(0 ≤ minute ∧ minute ≤ 59) ∨
          ¬(0 ≤ second ∧ second ≤ 59) then
        .error .invalidTimeValue
      else
        .ok (hour.toNat, minute.toNat, second.toNat)
    | _, _, _ => .error .invalidTimeFormat

/-- `SchedulerService.validate_recurrence_constraints`. -/
def validate_recurrence_constraints (rt : RecurrenceType)
    (scheduled_day : Option Int) : Except SchedulerErr Unit :=
  match rt with
  | .weekly =>
    match scheduled_day with
    | none => .error .weeklyDayRequired
    | some d => if ¬(0 ≤ d ∧ d ≤ 6) then .error .weeklyDayRequired else .ok ()
  | .monthly =>
    match scheduled_day with
    | none => .error .monthlyDayRequired
    | some d => if ¬(1 ≤ d ∧ d ≤ 31) then .error .monthlyDayRequired else .ok ()
  | _ => .ok ()

/-- `SchedulerService._next_run_utc`, phrased over the local wall clock:
the argument `local_now` is `from_time_utc.astimezone(tz)` and the result
is the local instant later shifted to UTC by `toUtcSecs`.  Datetime
comparisons between same-zone aware values compare the instants, i.e.
`toSecs`. -/
def next_run_utc (rt : RecurrenceType) (scheduled_time : String)
    (scheduled_day : Option Int) (local_now : LocalDT) (allow_once : Bool) :
    Except SchedulerErr (Option LocalDT) :=
  match parse_time scheduled_time with
  | .error e => .error e
  | .ok (hour, minute, second) =>
    match rt with
    | .once =>
      if ¬allow_once then .ok none
      else
        let target := replace_time local_now hour minute second
        .ok (some (if toSecs local_now < toSecs target then target else add_days target 1))
    | .daily =>
      let target := replace_time local_now hour minute second
      .ok (some (if toSecs local_now < toSecs target then target else add_days target 1))
    | .weekly =>
      match scheduled_day with
      | none => .error .weeklyDayRequired
      | some sd =>
        if sd < 0 ∨ sd > 6 then .error .weeklyDayRequired
        else
          let days_ahead := ((sd - (weekday local_now : Int)) % 7).toNat
          let target := replace_time (add_days local_now days_ahead) hour minute second
          .ok (some (if toSecs local_now < toSecs target then target else add_days target 7))
    | .monthly =>
      match scheduled_day with
      | none => .error .monthlyDayRequired
      | some sd =>
        if sd < 1 ∨ sd > 31 then .error .monthlyDayRequired
        else
          let year := local_now.year
          let month := local_now.month
          let max_day := daysInMonth year month
          let day := min sd.toNat max_day
          let target : LocalDT :=
            { year := year, month := month, day := day,
              hour := hour, minute := minute, second := second }
          if toSecs target ≤ toSecs local_now then
            let rolled := if month = 12 then (year + 1, 1) else (year, month + 1)
            let max_day2 := daysInMonth rolled.1 rolled.2
            let day2 := min sd.toNat max_day2
            .ok (some
              { year := rolled.1, month := rolled.2, day := day2,
                hour := hour, minute := minute, second := second })
          else .ok (some target)

/-! ## Theorems -/

/-- Claim C10: `update_message_snapshot` on an absent message id returns
`None` and leaves the store untouched; on a present id it writes the
refreshed row and returns exactly the row now stored. -/
theorem c10_update_snapshot_absent_noop_present_refreshed :
    ∀ (store : MsgStore) (message_id : MessageId) (ct : String) (cr : Render)
      (ls : Nat) (asid : Option StreamId) (st : Option MessageStreamStatus)
      (cost : Option ℚ),
      (store message_id = none →
        update_message_snapshot store message_id ct cr ls asid st cost = (none, store)) ∧
      (∀ m, store message_id = some m →
        ∃ m2, update_message_snapshot store message_id ct cr ls asid st cost =
            (some m2, setMsg store message_id m2) ∧
          (setMsg store message_id m2) message_id = some m2) := by
  intro store message_id ct cr ls asid st cost
  constructor
  · intro h
    simp [update_message_snapshot, h]
  · intro m h
    refine ⟨{ m with
        content_text := ct, content_render := cr,
        last_seq := max m.last_seq ls, active_stream_id := asid,
        stream_status := match st with
          | some s => some s
          | none => m.stream_status,
        total_cost_usd := match cost with
          | some v => some v
          | none => m.total_cost_usd }, ?_, ?_⟩
    · simp [update_message_snapshot, h]
    · simp [setMsg]

/-- Witness for C10 at a one-row store: id 0 is absent, id 1 present. -/
theorem c10_witness :
    ((fun i => if i = 1 then
        some { chat_id := 0, content_text := "", content_render := [],
               last_seq := 3, active_stream_id := none,
               role := MessageRole.assistant, model_id := none,
               stream_status := none, total_cost_usd := none,
               checkpoint_id := none } else none : MsgStore) 0 = none) ∧
    (update_message_snapshot
        (fun i => if i = 1 then
          some { chat_id := 0, content_text := "", content_render := [],
                 last_seq := 3, active_stream_id := none,
                 role := MessageRole.assistant, model_id := none,
                 stream_status := none, total_cost_usd := none,
                 checkpoint_id := none } else none : MsgStore)
        0 "x" [] 5 none none none =
      (none, (fun i => if i = 1 then
        some { chat_id := 0, content_text := "", content_render := [],
               last_seq := 3, active_stream_id := none,
               role := MessageRole.assistant, model_id := none,
               stream_status := none, total_cost_usd := none,
               checkpoint_id := none } else none : MsgStore))) :=
  ⟨rfl,
    (c10_update_snapshot_absent_noop_present_refreshed
      (fun i => if i = 1 then
        some { chat_id := 0, content_text := "", content_render := [],
               last_seq := 3, active_stream_id := none,
               role := MessageRole.assistant, model_id := none,
               stream_status := none, total_cost_usd := none,
               checkpoint_id := none } else none : MsgStore)
      0 "x" [] 5 none none none).1 rfl⟩

/-- Counterexample to claim C5 as stated: upserting with a null
`thinking_mode` over an entry whose `thinking_mode` is `"high"` keeps
`"high"` — the field is not overwritten by the supplied (null) value. -/
theorem c5_counterexample :
    ∃ e, (upsert_message
        (fun c => if c = 0 then
          some { id := 1, content := "a", model_id := "m1",
                 permission_mode := "auto", thinking_mode := some "high",
                 attachments := none } else none)
        0 2 "b" "m2" "plan" none none).2 0 = some e ∧
      e.thinking_mode = some "high" ∧ e.thinking_mode ≠ none := by
  refine ⟨{ id := 1, content := "a" ++ "\n" ++ "b", model_id := "m2",
            permission_mode := "plan", thinking_mode := some "high",
            attachments := none }, ?_, rfl, ?_⟩
  · simp [upsert_message, setQueue, attTruthy]
  · simp

/-- Claim C5 (amended): an upsert over a chat whose key already holds an
entry appends the new content after a newline separator, overwrites
`model_id` and `permission_mode`, overwrites `thinking_mode` only when
the new value is non-null (keeping it otherwise), and concatenates any
non-empty new attachments onto the existing ones; consequently a sequence
of upserts without an intervening pop leaves the first content followed
by each later content joined by the separator in call order. -/
theorem c5_upsert_merge_amended :
    (∀ (q : QueueStore) (chat_id : ChatId) (new_id : Nat)
        (content model_id permission_mode : String)
        (thinking_mode : Option String) (attachments : Option (List String)) e,
      q chat_id = some e →
      ∃ r, (upsert_message q chat_id new_id content model_id permission_mode
              thinking_mode attachments).2 chat_id = some r ∧
        r.content = e.content ++ "\n" ++ content ∧
        r.model_id = model_id ∧
        r.permission_mode = permission_mode ∧
        r.thinking_mode = (match thinking_mode with
          | some tm => some tm
          | none => e.thinking_mode) ∧
        (attTruthy attachments = true →
          r.attachments = some ((e.attachments.getD []) ++ (attachments.getD []))) ∧
        (attTruthy attachments = false → r.attachments = e.attachments)) ∧
    (∀ (chat_id : ChatId) (q : QueueStore) (c : UpsertCall) (cs : List UpsertCall),
      q chat_id = none →
      ∃ r, (applyUpserts chat_id (c :: cs) q) chat_id = some r ∧
        r.content = cs.foldl (fun acc x => acc ++ "\n" ++ x.content) c.content) := by
  have step : ∀ (q : QueueStore) (chat_id : ChatId) (cs : List UpsertCall) e,
      q chat_id = some e →
      ∃ r, (applyUpserts chat_id cs q) chat_id = some r ∧
        r.content = cs.foldl (fun acc x => acc ++ "\n" ++ x.content) e.content := by
    intro q chat_id cs
    induction cs generalizing q with
    | nil => intro e he; exact ⟨e, he, rfl⟩
    | cons c rest ih =>
      intro e he
      by_cases ha : attTruthy c.attachments = true
      · have hmem : (upsert_message q chat_id c.new_id c.content c.model_id
            c.permission_mode c.thinking_mode c.attachments).2 chat_id =
            some { e with
              content := e.content ++ "\n" ++ c.content,
              model_id := c.model_id,
              permission_mode := c.permission_mode,
              thinking_mode := match c.thinking_mode with
                | some tm => some tm
                | none => e.thinking_mode,
              attachments :=
                some ((e.attachments.getD []) ++ (c.attachments.getD [])) } := by
          simp [upsert_message, he, setQueue, ha]
        obtain ⟨r, hr, hc⟩ := ih _ _ hmem
        exact ⟨r, by simpa [applyUpserts] using hr, by rw [hc]; simp [List.foldl_cons]⟩
      · simp only [Bool.not_eq_true] at ha
        have hmem : (upsert_message q chat_id c.new_id c.content c.model_id
            c.permission_mode c.thinking_mode c.attachments).2 chat_id =
            some { e with
              content := e.content ++ "\n" ++ c.content,
              model_id := c.model_id,
              permission_mode := c.permission_mode,
              thinking_mode := match c.thinking_mode with
                | some tm => some tm
                | none => e.thinking_mode } := by
          simp [upsert_message, he, setQueue, ha]
        obtain ⟨r, hr, hc⟩ := ih _ _ hmem
        exact ⟨r, by simpa [applyUpserts] using hr, by rw [hc]; simp [List.foldl_cons]⟩
  constructor
  · intro q chat_id new_id content model_id permission_mode thinking_mode attachments e he
    by_cases ha : attTruthy attachments = true
    · refine ⟨{ e with
          content := e.content ++ "\n" ++ content,
          model_id := model_id,
          permission_mode := permission_mode,
          thinking_mode := match thinking_mode with
            | some tm => some tm
            | none => e.thinking_mode,
          attachments := some ((e.attachments.getD []) ++ (attachments.getD [])) },
        ?_, rfl, rfl, rfl, rfl, fun _ => rfl, fun hf => ?_⟩
      · simp [upsert_message, he, setQueue, ha]
      · rw [ha] at hf; cases hf
    · simp only [Bool.not_eq_true] at ha
      refine ⟨{ e with
          content := e.content ++ "\n" ++ content,
          model_id := model_id,
          permission_mode := permission_mode,
          thinking_mode := match thinking_mode with
            | some tm => some tm
            | none => e.thinking_mode },
        ?_, rfl, rfl, rfl, rfl, fun ht => ?_, fun _ => rfl⟩
      · simp [upsert_message, he, setQueue, ha]
      · rw [ha] at ht; cases ht
  · intro chat_id q c cs hq
    have hfirst : (upsert_message q chat_id c.new_id c.content c.model_id
        c.permission_mode c.thinking_mode c.attachments).2 chat_id =
        some { id := c.new_id, content := c.content, model_id := c.model_id,
               permission_mode := c.permission_mode,
               thinking_mode := c.thinking_mode, attachments := c.attachments } := by
      simp [upsert_message, hq, setQueue]
    obtain ⟨r, hr, hc⟩ := step _ _ cs _ hfirst
    exact ⟨r, by simpa [applyUpserts] using hr, hc⟩

/-- Witness for C5's amended theorem: two upserts over an initially empty
key merge "First follow-up" and "Second follow-up" with the newline
separator. -/
theorem c5_witness :
    ((fun _ => none : QueueStore) 0 = none) ∧
    ∃ r, (applyUpserts 0
        [{ new_id := 1, content := "First follow-up", model_id := "m",
           permission_mode := "auto", thinking_mode := none, attachments := none },
         { new_id := 2, content := "Second follow-up", model_id := "m",
           permission_mode := "auto", thinking_mode := none, attachments := none }]
        (fun _ => none)) 0 = some r ∧
      r.content = "First follow-up" ++ "\n" ++ "Second follow-up" :=
  ⟨rfl,
    c5_upsert_merge_amended.2 0 (fun _ => none)
      { new_id := 1, content := "First follow-up", model_id := "m",
        permission_mode := "auto", thinking_mode := none, attachments := none }
      [{ new_id := 2, content := "Second follow-up", model_id := "m",
         permission_mode := "auto", thinking_mode := none, attachments := none }]
      rfl⟩

/-- Counterexample to claim C7 as stated: with a pending cancel recorded
(deadline 10) and no live registration, the pending flag is observable
before `unregister` but gone afterwards — `unregister` clears it, so it
is no longer seen by `is_cancelled` nor by the next `register` within its
TTL. -/
theorem c7_counterexample :
    is_cancelled 5 0
      { events := fun _ => none,
        pending := fun c => if c = 0 then some 10 else none } = true ∧
    is_cancelled 5 0
      (cancel_unregister 0 none
        { events := fun _ => none,
          pending := fun c => if c = 0 then some 10 else none }) = false ∧
    (cancel_register 5 1 0
      (cancel_unregister 0 none
        { events := fun _ => none,
          pending := fun c => if c = 0 then some 10 else none })).1.isSet = false := by
  refine ⟨?_, ?_, ?_⟩ <;> decide

/-- Claim C7 (amended): `unregister(chat_id, event)` removes the chat's
live-event registration when the supplied event is the current one (or
none is supplied), keeps a non-matching registration, touches no other
chat — and it always clears the chat's pending-cancel flag as well. -/
theorem c7_unregister_amended :
    ∀ (s : CancelState) (chat_id : ChatId) (ev : Option Nat),
      (cancel_unregister chat_id ev s).pending chat_id = none ∧
      (∀ c, c ≠ chat_id →
        (cancel_unregister chat_id ev s).pending c = s.pending c ∧
        (cancel_unregister chat_id ev s).events c = s.events c) ∧
      (∀ cur, s.events chat_id = some cur → (ev = none ∨ ev = some cur.token) →
        (cancel_unregister chat_id ev s).events chat_id = none) ∧
      (∀ cur, s.events chat_id = some cur → ¬(ev = none ∨ ev = some cur.token) →
        (cancel_unregister chat_id ev s).events chat_id = some cur) ∧
      (s.events chat_id = none →
        (cancel_unregister chat_id ev s).events chat_id = none) := by
  intro s chat_id ev
  refine ⟨?_, ?_, ?_, ?_, ?_⟩
  · unfold cancel_unregister
    cases h : s.events chat_id <;> simp
  · intro c hc
    unfold cancel_unregister
    cases h : s.events chat_id with
    | none => simp [hc]
    | some cur =>
      refine ⟨by simp [hc], ?_⟩
      by_cases hm : ev = none ∨ ev = some cur.token
      · simp [hm, hc]
      · simp [hm]
  · intro cur hcur hm
    unfold cancel_unregister
    rw [hcur]
    simp [hm]
  · intro cur hcur hm
    unfold cancel_unregister
    rw [hcur]
    simp only [if_neg hm]
    exact hcur
  · intro h
    unfold cancel_unregister
    rw [h]
    exact h

/-- Witness for C7's amended theorem: a matching unregister clears both
the registration and the pending flag of chat 0 and leaves chat 1 alone. -/
theorem c7_witness :
    ((fun c => if c = 0 then some { token := 4, isSet := false } else none :
        ChatId → Option CancelEvent) 0 = some { token := 4, isSet := false }) ∧
    ((some 4 : Option Nat) = none ∨ (some 4 : Option Nat) = some 4) ∧
    (cancel_unregister 0 (some 4)
      { events := fun c => if c = 0 then some { token := 4, isSet := false } else none,
        pending := fun c => if c = 1 then some 9 else none }).pending 0 = none ∧
    (cancel_unregister 0 (some 4)
      { events := fun c => if c = 0 then some { token := 4, isSet := false } else none,
        pending := fun c => if c = 1 then some 9 else none }).events 0 = none := by
  refine ⟨rfl, Or.inr rfl, ?_, ?_⟩
  · exact (c7_unregister_amended
      { events := fun c => if c = 0 then some { token := 4, isSet := false } else none,
        pending := fun c => if c = 1 then some 9 else none } 0 (some 4)).1
  · exact (c7_unregister_amended
      { events := fun c => if c = 0 then some { token := 4, isSet := false } else none,
        pending := fun c => if c = 1 then some 9 else none } 0 (some 4)).2.2.1
      { token := 4, isSet := false } rfl (Or.inr rfl)

/-- Counterexample to claim C8 as stated: a mid-stream snapshot flush (one
pending `assistant_text` event, 1000 ms past the last flush) writes a
`content_render` that has no `segments` key at all. -/
theorem c8_counterexample :
    ((flush_snapshot
        { chat_id := 0, stream_id := 7, assistant_message_id := some 1 }
        false 1
        { log := { chats := fun c => if c = 0 then some 3 else none, events := [] },
          messages := fun i => if i = 1 then
            some { chat_id := 0, content_text := "", content_render := [],
                   last_seq := 0, active_stream_id := some 7,
                   role := MessageRole.assistant, model_id := none,
                   stream_status := some MessageStreamStatus.in_progress,
                   total_cost_usd := none, checkpoint_id := none } else none,
          queue := fun _ => none, started := [],
          rt := { snapshot := { events := [("assistant_text", [("text", "Hi")])],
                                text_parts := ["Hi"] },
                  event_buffer := [("assistant_text", [("text", "Hi")], none)],
                  pending_since_flush := 1, last_flush_at := 0,
                  last_seq := 0 } }).toOption.bind
      (fun w2 => (w2.messages 1).map
        (fun m => m.content_render.map Prod.fst))) = some ["events"] := by
  norm_num [flush_snapshot, flush_snapshot_write, flush_event_buffer,
    append_events_batch, append_events, batchRows, update_message_snapshot,
    setMsg, StreamSnapshotAccumulator.to_render,
    StreamSnapshotAccumulator.content_text, eventObj, Except.toOption]

/-- Claim C8 (amended): the `content_render` written at message creation
always carries a `segments` key holding an empty array, while the
documents written at mid-stream snapshot flushes and at the final
snapshot are built by `to_render` and carry only the `events` key — no
`segments` key at all. -/
theorem c8_render_segments_amended :
    (∀ (extractJson : String → String) (store : MsgStore) (new_id : MessageId)
        (chat_id : ChatId) (content : String) (role : MessageRole)
        (model_id : Option String) (st : Option MessageStreamStatus),
      ((create_message extractJson store new_id chat_id content role
          model_id st).1).content_render.lookup "segments" =
        some (RVal.rlist [])) ∧
    (∀ acc : StreamSnapshotAccumulator,
      acc.to_render.lookup "segments" = none ∧
      ∃ v, acc.to_render.lookup "events" = some v) := by
  constructor
  · intro extractJson store new_id chat_id content role model_id st
    by_cases h : role = MessageRole.assistant
    · simp [create_message, h, List.lookup]
    · by_cases h2 : extract_user_text_content extractJson content = ""
      · simp [create_message, h, h2, List.lookup]
      · simp [create_message, h, h2, List.lookup]
  · intro acc
    exact ⟨rfl, _, rfl⟩

/-- A request that survives pruning has not yet expired. -/
theorem prune_expired_now_lt (tbl : PermTable) (now : ℚ) (rid : ReqId)
    (p : PendingRequest) (hp : prune_expired now tbl rid = some p) :
    now < p.expires_at := by
  unfold prune_expired at hp
  split at hp
  · split at hp
    · cases hp
    · rename_i hq
      injection hp with h
      subst h
      exact not_le.mp hq
  · cases hp

/-- Claim C6: for a nonnegative caller timeout, `wait_for_response`
returns no later than `now + min(timeout, remaining_ttl)` and never past
the request's expiry; it returns the stored response when the respond
event fires inside that window, and null when the request is missing,
already expired (pruned), or no response arrives within the bound. -/
theorem c6_wait_bounded_by_timeout_and_ttl :
    ∀ (tbl : PermTable) (rid : ReqId) (now timeout : ℚ),
      0 ≤ timeout →
      (prune_expired now tbl rid = none →
        (wait_for_response tbl rid now timeout).1 = none ∧
        (wait_for_response tbl rid now timeout).2.1 = now) ∧
      (∀ p, prune_expired now tbl rid = some p →
        ((wait_for_response tbl rid now timeout).2.1 ≤
            now + min timeout (p.expires_at - now) ∧
          (wait_for_response tbl rid now timeout).2.1 ≤ p.expires_at) ∧
        (∀ t, p.event_fires_at = some t →
          t ≤ now + min timeout (p.expires_at - now) →
          (wait_for_response tbl rid now timeout).1 = p.response) ∧
        (p.event_fires_at = none →
          (wait_for_response tbl rid now timeout).1 = none) ∧
        (∀ t, p.event_fires_at = some t →
          ¬t ≤ now + min timeout (p.expires_at - now) →
          (wait_for_response tbl rid now timeout).1 = none)) := by
  intro tbl rid now timeout ht
  constructor
  · intro h
    refine ⟨?_, ?_⟩ <;> simp [wait_for_response, h]
  · intro p hp
    have hexp : now < p.expires_at := prune_expired_now_lt tbl now rid p hp
    have hrem : ¬(p.expires_at - now ≤ 0) := by linarith
    have hrem2 : ¬p.expires_at ≤ now := not_le.mpr hexp
    have hmin0 : (0 : ℚ) ≤ min timeout (p.expires_at - now) :=
      le_min ht (by linarith)
    have hwt : max (min timeout (p.expires_at - now)) 0 =
        min timeout (p.expires_at - now) := max_eq_left hmin0
    cases hf : p.event_fires_at with
    | none =>
      refine ⟨⟨?_, ?_⟩, ?_, ?_, ?_⟩
      · simp only [wait_for_response, hp, hf, if_neg hrem, hwt]
        linarith
      · simp only [wait_for_response, hp, hf, if_neg hrem, hwt]
        have : min timeout (p.expires_at - now) ≤ p.expires_at - now := min_le_right _ _
        linarith
      · intro t ht2; cases ht2
      · intro _
        simp [wait_for_response, hp, hf, if_neg hrem, if_neg hrem2]
      · intro t ht2; cases ht2
    | some t =>
      by_cases htle : t ≤ now + min timeout (p.expires_at - now)
      · refine ⟨⟨?_, ?_⟩, ?_, ?_, ?_⟩
        · simp only [wait_for_response, hp, hf, if_neg hrem, hwt, if_pos htle]
          simp only [max_le_iff]
          constructor
          · exact htle
          · linarith
        · simp only [wait_for_response, hp, hf, if_neg hrem, hwt, if_pos htle]
          simp only [max_le_iff]
          have : min timeout (p.expires_at - now) ≤ p.expires_at - now := min_le_right _ _
          constructor <;> linarith
        · intro u hu _
          injection hu with hu
          subst hu
          simp [wait_for_response, hp, hf, if_neg hrem, if_neg hrem2, hwt,
            if_pos htle]
        · intro hnone; cases hnone
        · intro u hu hnot
          injection hu with hu
          subst hu
          exact absurd htle hnot
      · refine ⟨⟨?_, ?_⟩, ?_, ?_, ?_⟩
        · simp only [wait_for_response, hp, hf, if_neg hrem, hwt, if_neg htle]
          linarith
        · simp only [wait_for_response, hp, hf, if_neg hrem, hwt, if_neg htle]
          have : min timeout (p.expires_at - now) ≤ p.expires_at - now := min_le_right _ _
          linarith
        · intro u hu hle
          injection hu with hu
          subst hu
          exact absurd hle htle
        · intro hnone; cases hnone
        · intro u hu _
          injection hu with hu
          subst hu
          simp [wait_for_response, hp, hf, if_neg hrem, if_neg hrem2, hwt,
            if_neg htle]

/-- Witness for C6 at a one-entry table (request 3 expires at 100) with
`now = 40`, `timeout = 10`, and the respond event firing at 45, inside
`min(10, 60)`: the stored response is returned. -/
theorem c6_witness :
    (0 : ℚ) ≤ 10 ∧
    prune_expired 40
      (fun r => if r = 3 then some { expires_at := 100, response := some { approved := true, alternative_instruction := none, user_answers := none }, event_fires_at := some 45 } else none) 3 =
      some { expires_at := 100, response := some { approved := true, alternative_instruction := none, user_answers := none }, event_fires_at := some 45 } ∧
    (wait_for_response
      (fun r => if r = 3 then some { expires_at := 100, response := some { approved := true, alternative_instruction := none, user_answers := none }, event_fires_at := some 45 } else none) 3 40 10).1 =
      some { approved := true, alternative_instruction := none,
             user_answers := none } := by
  refine ⟨by norm_num, by norm_num [prune_expired], ?_⟩
  exact ((c6_wait_bounded_by_timeout_and_ttl
      (fun r => if r = 3 then some { expires_at := 100, response := some { approved := true, alternative_instruction := none, user_answers := none }, event_fires_at := some 45 } else none) 3 40 10
      (by norm_num)).2
    { expires_at := 100, response := some { approved := true, alternative_instruction := none, user_answers := none }, event_fires_at := some 45 }
    (by norm_num [prune_expired])).2.1 45 rfl (by norm_num)

/-- One append request preserves the gap-free invariant; a failed append
(absent chat) rolls the transaction back and leaves the state unchanged. -/
theorem gapFree_append_step (r : AppendReq) (s : LogState) (h : gapFree s) :
    gapFree (match append_event_with_next_seq r.chat_id r.message_id r.stream_id
        r.event_type r.render_payload r.audit_payload s with
      | .ok (_, st2) => st2
      | .error _ => s) := by
  cases hc : s.chats r.chat_id with
  | none =>
    simpa [append_event_with_next_seq, hc] using h
  | some l =>
    simp only [append_event_with_next_seq, hc]
    intro c2 l2 h2 q
    simp only [setChat] at h2
    simp only [hasSeq, List.mem_append, List.mem_singleton]
    by_cases hcc : c2 = r.chat_id
    · subst hcc
      rw [if_pos rfl] at h2
      injection h2 with h2
      subst h2
      constructor
      · rintro ⟨e, he, hec, hes⟩
        rcases he with hin | rfl
        · have := (h r.chat_id l hc q).mp ⟨e, hin, hec, hes⟩
          omega
        · simp at hes
          omega
      · intro hq
        by_cases hql : q ≤ l
        · obtain ⟨e, hin, hec, hes⟩ := (h r.chat_id l hc q).mpr ⟨hq.1, hql⟩
          exact ⟨e, Or.inl hin, hec, hes⟩
        · have hq1 : q = l + 1 := by omega
          subst hq1
          exact ⟨_, Or.inr rfl, rfl, rfl⟩
    · rw [if_neg hcc] at h2
      constructor
      · rintro ⟨e, he, hec, hes⟩
        rcases he with hin | rfl
        · exact (h c2 l2 h2 q).mp ⟨e, hin, hec, hes⟩
        · simp at hec
          exact absurd hec.symm hcc
      · intro hq
        obtain ⟨e, hin, hec, hes⟩ := (h c2 l2 h2 q).mpr hq
        exact ⟨e, Or.inl hin, hec, hes⟩

/-- Claim C1: `append_event_with_next_seq` on a present chat increments
`last_event_seq` to `l + 1`, returns that value, and inserts exactly one
event row carrying it; on an absent chat it fails with `ChatNotFound`;
and any sequence of appends (failed ones rolling back) keeps every chat's
seq set equal to `{1..last_event_seq}` — gap-free. -/
theorem c1_append_next_seq_gap_free :
    (∀ (chat_id message_id stream_id : Nat) (event_type : String)
        (render_payload : Payload) (audit_payload : Option Payload)
        (s : LogState) (l : Nat), s.chats chat_id = some l →
      append_event_with_next_seq chat_id message_id stream_id event_type
          render_payload audit_payload s =
        .ok (l + 1,
          { chats := setChat s.chats chat_id (l + 1),
            events := s.events ++
              [{ chat_id := chat_id, message_id := message_id,
                 stream_id := stream_id, seq := l + 1,
                 event_type := event_type, render_payload := render_payload,
                 audit_payload := audit_payload }] })) ∧
    (∀ (chat_id message_id stream_id : Nat) (event_type : String)
        (render_payload : Payload) (audit_payload : Option Payload)
        (s : LogState), s.chats chat_id = none →
      append_event_with_next_seq chat_id message_id stream_id event_type
          render_payload audit_payload s = .error (.chatNotFound chat_id)) ∧
    (∀ (reqs : List AppendReq) (s : LogState),
      gapFree s → gapFree (runAppends reqs s)) := by
  refine ⟨?_, ?_, ?_⟩
  · intro chat_id message_id stream_id event_type render_payload audit_payload s l h
    simp [append_event_with_next_seq, h]
  · intro chat_id message_id stream_id event_type render_payload audit_payload s h
    simp [append_event_with_next_seq, h]
  · intro reqs
    induction reqs with
    | nil => intro s h; simpa [runAppends] using h
    | cons r rest ih =>
      intro s h
      have h2 := gapFree_append_step r s h
      simpa [runAppends, List.foldl_cons] using ih _ h2

/-- Witness for C1: from a fresh store holding chat 0 with
`last_event_seq = 0`, a successful append to chat 0 followed by a failed
append to the absent chat 5 leaves the store gap-free. -/
theorem c1_witness :
    gapFree { chats := fun c => if c = 0 then some 0 else none, events := [] } ∧
    gapFree (runAppends
      [{ chat_id := 0, message_id := 1, stream_id := 2,
         event_type := "stream_started", render_payload := [],
         audit_payload := none },
       { chat_id := 5, message_id := 1, stream_id := 2,
         event_type := "complete", render_payload := [],
         audit_payload := none }]
      { chats := fun c => if c = 0 then some 0 else none, events := [] }) := by
  have h0 : gapFree
      { chats := fun c => if c = 0 then some 0 else none, events := [] } := by
    intro c l h q
    simp only [hasSeq]
    constructor
    · rintro ⟨e, he, -, -⟩
      exact absurd he (List.not_mem_nil e)
    · rintro ⟨h1, h2⟩
      exfalso
      have h3 : (if c = 0 then some 0 else none : Option Nat) = some l := h
      by_cases hc : c = 0
      · rw [if_pos hc] at h3
        injection h3 with h3
        omega
      · rw [if_neg hc] at h3
        cases h3
  exact ⟨h0, c1_append_next_seq_gap_free.2.2 _ _ h0⟩

/-- Overwriting a point update overwrites. -/
theorem setChat_setChat (f : ChatId → Option Nat) (c : ChatId) (a b : Nat) :
    setChat (setChat f c a) c b = setChat f c b := by
  funext x
  unfold setChat
  by_cases hx : x = c <;> simp [hx]

/-- Claim C2: on a present chat, the batch append allocates the
consecutive seqs `l+1 .. l+N`, inserts the N buffered events with those
seqs in order, returns the last allocated seq — and N successive
`append_event_with_next_seq` calls produce exactly the same store. -/
theorem c2_append_batch_equiv_sequential :
    ∀ (chat_id message_id stream_id : Nat) (evs : List BufEv) (s : LogState)
      (l : Nat), s.chats chat_id = some l →
      append_events_batch chat_id message_id stream_id evs s =
        .ok (l + evs.length,
          { chats := setChat s.chats chat_id (l + evs.length),
            events := s.events ++ batchRows chat_id message_id stream_id l evs }) ∧
      append_one_by_one chat_id message_id stream_id evs s =
        .ok { chats := setChat s.chats chat_id (l + evs.length),
              events := s.events ++ batchRows chat_id message_id stream_id l evs } := by
  intro chat_id message_id stream_id evs
  have key : ∀ (s : LogState) (l : Nat), s.chats chat_id = some l →
      append_one_by_one chat_id message_id stream_id evs s =
        .ok { chats := setChat s.chats chat_id (l + evs.length),
              events := s.events ++ batchRows chat_id message_id stream_id l evs } := by
    induction evs with
    | nil =>
      intro s l h
      have hch : setChat s.chats chat_id l = s.chats := by
        funext x
        unfold setChat
        by_cases hx : x = chat_id
        · subst hx
          simp [h]
        · rw [if_neg hx]
      simp [append_one_by_one, batchRows, hch]
    | cons e rest ih =>
      intro s l h
      have hstep : append_event_with_next_seq chat_id message_id stream_id
          e.1 e.2.1 e.2.2 s =
          .ok (l + 1,
            { chats := setChat s.chats chat_id (l + 1),
              events := s.events ++
                [{ chat_id := chat_id, message_id := message_id,
                   stream_id := stream_id, seq := l + 1, event_type := e.1,
                   render_payload := e.2.1, audit_payload := e.2.2 }] }) := by
        simp [append_event_with_next_seq, h]
      have hs2 : (setChat s.chats chat_id (l + 1)) chat_id = some (l + 1) := by
        simp [setChat]
      have hrest := ih
        { chats := setChat s.chats chat_id (l + 1),
          events := s.events ++
            [{ chat_id := chat_id, message_id := message_id,
               stream_id := stream_id, seq := l + 1, event_type := e.1,
               render_payload := e.2.1, audit_payload := e.2.2 }] }
        (l + 1) hs2
      have harith : l + 1 + rest.length = l + (e :: rest).length := by
        simp [List.length_cons]
        omega
      simp only [append_one_by_one, hstep]
      rw [hrest]
      simp only [List.append_assoc, List.singleton_append, setChat_setChat, harith]
      rfl
  intro s l h
  refine ⟨?_, key s l h⟩
  simp [append_events_batch, append_events, h]

/-- Witness for C2: one buffered event batch-appended to chat 0 equals the
single sequential append. -/
theorem c2_witness :
    append_events_batch 0 1 2 [("assistant_text", [("text", "Hi")], none)]
        { chats := fun c => if c = 0 then some 0 else none, events := [] } =
      .ok (0 + 1,
        { chats := setChat (fun c => if c = 0 then some 0 else none) 0 (0 + 1),
          events := [] ++
            batchRows 0 1 2 0 [("assistant_text", [("text", "Hi")], none)] }) ∧
    append_one_by_one 0 1 2 [("assistant_text", [("text", "Hi")], none)]
        { chats := fun c => if c = 0 then some 0 else none, events := [] } =
      .ok { chats := setChat (fun c => if c = 0 then some 0 else none) 0 (0 + 1),
            events := [] ++
              batchRows 0 1 2 0 [("assistant_text", [("text", "Hi")], none)] } :=
  c2_append_batch_equiv_sequential 0 1 2
    [("assistant_text", [("text", "Hi")], none)]
    { chats := fun c => if c = 0 then some 0 else none, events := [] } 0 rfl

/-- What `_flush_event_buffer` does on a present chat: batch-append the
buffer (a no-op when it is empty), bump the chat counter by the buffer
length, clear the buffer, and touch nothing else. -/
theorem flush_event_buffer_ok (cfg : RuntimeCfg) (mid : MessageId)
    (w : StreamWorld) (l : Nat)
    (hm : cfg.assistant_message_id = some mid)
    (hc : w.log.chats cfg.chat_id = some l) :
    flush_event_buffer cfg w = .ok
      { log := { chats := setChat w.log.chats cfg.chat_id
                   (l + w.rt.event_buffer.length),
                 events := w.log.events ++
                   batchRows cfg.chat_id mid cfg.stream_id l w.rt.event_buffer },
        messages := w.messages, queue := w.queue, started := w.started,
        rt := { w.rt with
                event_buffer := [],
                last_seq := if w.rt.event_buffer.isEmpty then w.rt.last_seq
                  else l + w.rt.event_buffer.length } } := by
  obtain ⟨log, messages, queue, started, rt⟩ := w
  obtain ⟨snap, buf, pend, lfa, ls⟩ := rt
  cases buf with
  | nil =>
    have hch : setChat log.chats cfg.chat_id l = log.chats := by
      funext x
      unfold setChat
      by_cases hx : x = cfg.chat_id
      · subst hx
        simp only at hc
        simp [hc]
      · rw [if_neg hx]
    simp [flush_event_buffer, hm, batchRows, hch]
  | cons b bs =>
    simp only at hc
    simp [flush_event_buffer, hm, append_events_batch, append_events, hc]

/-- Claim C4: the non-forced snapshot flush is a no-op when nothing is
pending since the last flush, and also when under 200 ms have elapsed and
fewer than 24 events are pending; otherwise it flushes the buffer into
the log, writes the coalesced snapshot onto the assistant message with
the runtime's stream id, and resets the buffer, the watermark and the
flush clock. -/
theorem c4_flush_snapshot_cadence :
    ∀ (cfg : RuntimeCfg) (mid : MessageId) (w : StreamWorld) (l : Nat) (now : ℚ),
      cfg.assistant_message_id = some mid →
      w.log.chats cfg.chat_id = some l →
      (w.rt.pending_since_flush = 0 → flush_snapshot cfg false now w = .ok w) ∧
      (1 ≤ w.rt.pending_since_flush →
        (now - w.rt.last_flush_at) * 1000 < 200 →
        w.rt.pending_since_flush < 24 →
        flush_snapshot cfg false now w = .ok w) ∧
      (1 ≤ w.rt.pending_since_flush →
        (200 ≤ (now - w.rt.last_flush_at) * 1000 ∨ 24 ≤ w.rt.pending_since_flush) →
        ∃ w2, flush_snapshot cfg false now w = .ok w2 ∧
          w2.rt.event_buffer = [] ∧
          w2.rt.pending_since_flush = 0 ∧
          w2.rt.last_flush_at = now ∧
          w2.log.events = w.log.events ++
            batchRows cfg.chat_id mid cfg.stream_id l w.rt.event_buffer ∧
          (∀ m, w.messages mid = some m →
            ∃ m2, w2.messages mid = some m2 ∧
              m2.content_text = w.rt.snapshot.content_text ∧
              m2.content_render = w.rt.snapshot.to_render ∧
              m2.active_stream_id = some cfg.stream_id ∧
              m2.stream_status = m.stream_status)) := by
  intro cfg mid w l now hm hc
  have hbuf := flush_event_buffer_ok cfg mid w l hm hc
  refine ⟨?_, ?_, ?_⟩
  · intro hp
    simp [flush_snapshot, hm, hp]
  · intro hp1 he hcnt
    have hpne : ¬(w.rt.pending_since_flush = 0) := by omega
    have hcond : (now - w.rt.last_flush_at) * 1000 < 200 ∧
        w.rt.pending_since_flush < 24 := ⟨he, hcnt⟩
    simp [flush_snapshot, hm, hpne, hcond]
  · intro hp1 hthresh
    have hpne : ¬(w.rt.pending_since_flush = 0) := by omega
    have hcond : ¬((now - w.rt.last_flush_at) * 1000 < 200 ∧
        w.rt.pending_since_flush < 24) := by
      rintro ⟨h1, h2⟩
      rcases hthresh with h | h
      · linarith
      · omega
    refine ⟨{ log := { chats := setChat w.log.chats cfg.chat_id
                           (l + w.rt.event_buffer.length),
                       events := w.log.events ++
                           batchRows cfg.chat_id mid cfg.stream_id l
                             w.rt.event_buffer },
              messages := (update_message_snapshot w.messages mid
                  w.rt.snapshot.content_text w.rt.snapshot.to_render
                  (if w.rt.event_buffer.isEmpty then w.rt.last_seq
                    else l + w.rt.event_buffer.length)
                  (some cfg.stream_id) none none).2,
              queue := w.queue, started := w.started,
              rt := { snapshot := w.rt.snapshot, event_buffer := [],
                      pending_since_flush := 0, last_flush_at := now,
                      last_seq := if w.rt.event_buffer.isEmpty then
                          w.rt.last_seq
                        else l + w.rt.event_buffer.length } },
      ?_, rfl, rfl, rfl, rfl, ?_⟩
    · simp [flush_snapshot, hm, hpne, hcond, flush_snapshot_write, hbuf]
    · intro m hmm
      refine ⟨{ m with
          content_text := w.rt.snapshot.content_text,
          content_render := w.rt.snapshot.to_render,
          last_seq := max m.last_seq
            (if w.rt.event_buffer.isEmpty then w.rt.last_seq
              else l + w.rt.event_buffer.length),
          active_stream_id := some cfg.stream_id }, ?_, rfl, rfl, rfl, rfl⟩
      simp [update_message_snapshot, hmm, setMsg]

/-- What `_save_final_snapshot` does on a present chat: flush the buffer
and write the terminal snapshot, leaving the queue and the started-stream
set untouched. -/
theorem save_final_snapshot_ok (cfg : RuntimeCfg) (mid : MessageId)
    (w : StreamWorld) (l : Nat) (status : MessageStreamStatus) (cost : Option ℚ)
    (hm : cfg.assistant_message_id = some mid)
    (hc : w.log.chats cfg.chat_id = some l) :
    ∃ w1, save_final_snapshot cfg status cost w = .ok w1 ∧
      w1.log.events = w.log.events ++
        batchRows cfg.chat_id mid cfg.stream_id l w.rt.event_buffer ∧
      w1.log.chats cfg.chat_id = some (l + w.rt.event_buffer.length) ∧
      w1.queue = w.queue ∧
      w1.started = w.started ∧
      w1.rt.event_buffer = [] := by
  refine ⟨{ log := { chats := setChat w.log.chats cfg.chat_id
                         (l + w.rt.event_buffer.length),
                     events := w.log.events ++
                         batchRows cfg.chat_id mid cfg.stream_id l
                           w.rt.event_buffer },
            messages := (update_message_snapshot w.messages mid
                w.rt.snapshot.content_text w.rt.snapshot.to_render
                (if w.rt.event_buffer.isEmpty then w.rt.last_seq
                  else l + w.rt.event_buffer.length)
                none (some status) cost).2,
            queue := w.queue, started := w.started,
            rt := { w.rt with
                    event_buffer := [],
                    last_seq := if w.rt.event_buffer.isEmpty then
                        w.rt.last_seq
                      else l + w.rt.event_buffer.length } },
    ?_, rfl, ?_, rfl, rfl, rfl⟩
  · simp [save_final_snapshot, hm, flush_event_buffer_ok cfg mid w l hm hc]
  · simp [setChat]

/-- `_create_checkpoint` touches at most the assistant message row: the
log, the queue, the started set and the runtime state are unchanged. -/
theorem create_checkpoint_frame (cfg : RuntimeCfg) (chk : Option String)
    (w : StreamWorld) :
    (create_checkpoint cfg chk w).log = w.log ∧
    (create_checkpoint cfg chk w).queue = w.queue ∧
    (create_checkpoint cfg chk w).started = w.started ∧
    (create_checkpoint cfg chk w).rt = w.rt := by
  unfold create_checkpoint
  split
  · split
    · exact ⟨rfl, rfl, rfl, rfl⟩
    · exact ⟨rfl, rfl, rfl, rfl⟩
  · exact ⟨rfl, rfl, rfl, rfl⟩

/-- Claim C3: on `completed`, the runtime pops the chat's follow-up with a
single get-and-delete; when one was queued it creates the user and
assistant rows, appends a `queue_processing` event (and no `complete`),
and hands the follow-up off as a new background stream; when none was
queued it appends the final `complete` event and starts nothing. -/
theorem c3_completed_follow_up_handoff :
    ∀ (extractJson : String → String) (cfg : RuntimeCfg) (mid : MessageId)
      (w : StreamWorld) (l : Nat) (cost : Option ℚ) (chk : Option String)
      (u a : MessageId),
      cfg.assistant_message_id = some mid →
      w.log.chats cfg.chat_id = some l →
      u ≠ a →
      (∀ entry, w.queue cfg.chat_id = some entry →
        ((complete_stream extractJson cfg MessageStreamStatus.completed cost
            chk u a w).toOption.map
          (fun w2 => (w2.queue cfg.chat_id,
            (w2.messages u).map (fun m => (m.role, m.chat_id, m.content_text)),
            (w2.messages a).map
              (fun m => (m.role, m.chat_id, m.stream_status, m.model_id)),
            w2.started))) =
          some (none,
            some (MessageRole.user, cfg.chat_id,
              extract_user_text_content extractJson entry.content),
            some (MessageRole.assistant, cfg.chat_id,
              some MessageStreamStatus.in_progress, some entry.model_id),
            w.started ++
              [{ chat_id := cfg.chat_id, prompt := entry.content,
                 model_id := entry.model_id,
                 permission_mode := entry.permission_mode,
                 thinking_mode := entry.thinking_mode,
                 assistant_message_id := a }]) ∧
        ((complete_stream extractJson cfg MessageStreamStatus.completed cost
            chk u a w).toOption.map (fun w2 => w2.log.events)) =
          some (w.log.events ++
            batchRows cfg.chat_id mid cfg.stream_id l w.rt.event_buffer ++
            [{ chat_id := cfg.chat_id, message_id := mid,
               stream_id := cfg.stream_id,
               seq := l + w.rt.event_buffer.length + 1,
               event_type := "queue_processing",
               render_payload :=
                 [("queued_message_id", toString entry.id),
                  ("user_message_id", toString u),
                  ("assistant_message_id", toString a),
                  ("content", entry.content),
                  ("model_id", entry.model_id)],
               audit_payload := some (sanitize_payload
                 [("queued_message_id", toString entry.id),
                  ("user_message_id", toString u),
                  ("assistant_message_id", toString a),
                  ("content", entry.content),
                  ("model_id", entry.model_id)]) }])) ∧
      (w.queue cfg.chat_id = none →
        ((complete_stream extractJson cfg MessageStreamStatus.completed cost
            chk u a w).toOption.map
          (fun w2 => (w2.queue cfg.chat_id, w2.started))) =
          some (none, w.started) ∧
        ((complete_stream extractJson cfg MessageStreamStatus.completed cost
            chk u a w).toOption.map (fun w2 => w2.log.events)) =
          some (w.log.events ++
            batchRows cfg.chat_id mid cfg.stream_id l w.rt.event_buffer ++
            [{ chat_id := cfg.chat_id, message_id := mid,
               stream_id := cfg.stream_id,
               seq := l + w.rt.event_buffer.length + 1,
               event_type := "complete",
               render_payload := [("status", "completed")],
               audit_payload := some (sanitize_payload
                 [("status", "completed")]) }])) := by
  intro extractJson cfg mid w l cost chk u a hm hc hua
  obtain ⟨w1, hw1, hev1, hch1, hq1, hst1, hbuf1⟩ :=
    save_final_snapshot_ok cfg mid w l MessageStreamStatus.completed cost hm hc
  have hck := create_checkpoint_frame cfg chk w1
  have hbuf3 : (create_checkpoint cfg chk w1).rt.event_buffer = [] := by
    rw [hck.2.2.2]; exact hbuf1
  have hch3 : (create_checkpoint cfg chk w1).log.chats cfg.chat_id =
      some (l + w.rt.event_buffer.length) := by
    rw [hck.1]; exact hch1
  have hev3 : (create_checkpoint cfg chk w1).log.events =
      w.log.events ++ batchRows cfg.chat_id mid cfg.stream_id l
        w.rt.event_buffer := by
    rw [hck.1]; exact hev1
  have hq3 : (create_checkpoint cfg chk w1).queue = w.queue := by
    rw [hck.2.1]; exact hq1
  have hst3 : (create_checkpoint cfg chk w1).started = w.started := by
    rw [hck.2.2.1]; exact hst1
  constructor
  · intro entry hqe
    have hpop : (create_checkpoint cfg chk w1).queue cfg.chat_id = some entry := by
      rw [hq3]; exact hqe
    constructor
    · simp [complete_stream, hw1, process_next_queued, pop_next_message, hpop,
        create_message, emit_event, hm, flush_event_buffer, hbuf3,
        append_event_with_next_seq, hch3, hst3, setMsg, setQueue, hua,
        Ne.symm hua, Except.toOption]
    · simp [complete_stream, hw1, process_next_queued, pop_next_message, hpop,
        create_message, emit_event, hm, flush_event_buffer, hbuf3,
        append_event_with_next_seq, hch3, hev3, setMsg, setQueue,
        Except.toOption]
  · intro hqn
    have hpop : (create_checkpoint cfg chk w1).queue cfg.chat_id = none := by
      rw [hq3]; exact hqn
    constructor
    · simp [complete_stream, hw1, process_next_queued, pop_next_message, hpop,
        emit_event, hm, flush_event_buffer, hbuf3,
        append_event_with_next_seq, hch3, hq3, hst3, setQueue,
        Except.toOption]
    · simp [complete_stream, hw1, process_next_queued, pop_next_message, hpop,
        emit_event, hm, flush_event_buffer, hbuf3,
        append_event_with_next_seq, hch3, hev3, setQueue, Except.toOption]

/-- Witness for C4: one pending event and 1000 ms since the last flush
trigger a snapshot write that resets the buffer and watermark. -/
theorem c4_witness :
    (let cfg : RuntimeCfg :=
      { chat_id := 0, stream_id := 7, assistant_message_id := some 1 }
     let w : StreamWorld :=
      { log := { chats := fun c => if c = 0 then some 3 else none, events := [] },
        messages := fun i => if i = 1 then
          some { chat_id := 0, content_text := "", content_render := [],
                 last_seq := 0, active_stream_id := some 7,
                 role := MessageRole.assistant, model_id := none,
                 stream_status := some MessageStreamStatus.in_progress,
                 total_cost_usd := none, checkpoint_id := none } else none,
        queue := fun _ => none, started := [],
        rt := { snapshot := { events := [("assistant_text", [("text", "Hi")])],
                              text_parts := ["Hi"] },
                event_buffer := [("assistant_text", [("text", "Hi")], none)],
                pending_since_flush := 1, last_flush_at := 0, last_seq := 0 } }
     1 ≤ w.rt.pending_since_flush ∧
     (200 ≤ ((1 : ℚ) - w.rt.last_flush_at) * 1000 ∨
       24 ≤ w.rt.pending_since_flush) ∧
     ∃ w2, flush_snapshot cfg false 1 w = .ok w2 ∧
       w2.rt.event_buffer = [] ∧
       w2.rt.pending_since_flush = 0 ∧
       w2.rt.last_flush_at = 1 ∧
       w2.log.events = w.log.events ++
         batchRows cfg.chat_id 1 cfg.stream_id 3 w.rt.event_buffer ∧
       (∀ m, w.messages 1 = some m →
         ∃ m2, w2.messages 1 = some m2 ∧
           m2.content_text = w.rt.snapshot.content_text ∧
           m2.content_render = w.rt.snapshot.to_render ∧
           m2.active_stream_id = some cfg.stream_id ∧
           m2.stream_status = m.stream_status)) := by
  intro cfg w
  refine ⟨by norm_num, Or.inl (by norm_num), ?_⟩
  exact (c4_flush_snapshot_cadence cfg 1 w 3 1 rfl rfl).2.2
    (by norm_num) (Or.inl (by norm_num))

/-- Witness for C3: a completed stream with a queued follow-up pops it,
creates the two rows and hands off a new stream. -/
theorem c3_witness :
    (let cfg : RuntimeCfg :=
      { chat_id := 0, stream_id := 7, assistant_message_id := some 1 }
     let w : StreamWorld :=
      { log := { chats := fun c => if c = 0 then some 3 else none, events := [] },
        messages := fun _ => none,
        queue := fun c => if c = 0 then
          some { id := 9, content := "hello", model_id := "m",
                 permission_mode := "auto", thinking_mode := none,
                 attachments := none } else none,
        started := [],
        rt := { snapshot := { events := [], text_parts := [] },
                event_buffer := [], pending_since_flush := 0,
                last_flush_at := 0, last_seq := 3 } }
     cfg.assistant_message_id = some 1 ∧
     w.log.chats cfg.chat_id = some 3 ∧
     (10 : MessageId) ≠ 11 ∧
     w.queue cfg.chat_id =
       some { id := 9, content := "hello", model_id := "m",
              permission_mode := "auto", thinking_mode := none,
              attachments := none } ∧
     ((complete_stream (fun s => s) cfg MessageStreamStatus.completed none
         none 10 11 w).toOption.map
       (fun w2 => (w2.queue cfg.chat_id,
         (w2.messages 10).map (fun m => (m.role, m.chat_id, m.content_text)),
         (w2.messages 11).map
           (fun m => (m.role, m.chat_id, m.stream_status, m.model_id)),
         w2.started))) =
       some (none,
         some (MessageRole.user, cfg.chat_id,
           extract_user_text_content (fun s => s) "hello"),
         some (MessageRole.assistant, cfg.chat_id,
           some MessageStreamStatus.in_progress, some "m"),
         w.started ++
           [{ chat_id := cfg.chat_id, prompt := "hello", model_id := "m",
              permission_mode := "auto", thinking_mode := none,
              assistant_message_id := 11 }])) := by
  intro cfg w
  refine ⟨rfl, rfl, by decide, rfl, ?_⟩
  exact ((c3_completed_follow_up_handoff (fun s => s) cfg 1 w 3 none none
      10 11 rfl rfl (by decide)).1
    { id := 9, content := "hello", model_id := "m",
      permission_mode := "auto", thinking_mode := none,
      attachments := none } rfl).1

theorem daysBeforeMonth_one (y : Nat) : daysBeforeMonth y 1 = 0 := rfl

theorem daysBeforeMonth_13 (y : Nat) :
    daysBeforeMonth y 13 = daysBeforeMonth y 12 + daysInMonth y 12 := rfl

/-- The twelve month lengths of year `y` sum to its day count. -/
theorem daysBeforeMonth_year (y : Nat) : daysBeforeMonth y 13 = daysInYear y := by
  cases h : isLeap y <;>
    simp [daysBeforeMonth, daysInMonth, daysInYear, h]

theorem toDays_replace_time (d : LocalDT) (h m s : Nat) :
    toDays (replace_time d h m s) = toDays d := rfl

theorem next_day_time (d : LocalDT) :
    (next_day d).hour = d.hour ∧ (next_day d).minute = d.minute ∧
      (next_day d).second = d.second := by
  unfold next_day
  split_ifs <;> exact ⟨rfl, rfl, rfl⟩

/-- Every real month has at least one day. -/
theorem daysInMonth_pos (y m : Nat) (h1 : 1 ≤ m) (h2 : m ≤ 12) :
    1 ≤ daysInMonth y m := by
  cases hL : isLeap y <;> interval_cases m <;> norm_num [daysInMonth, hL]

theorem next_day_spec (d : LocalDT) (h : DateValid d) :
    DateValid (next_day d) ∧ toDays (next_day d) = toDays d + 1 := by
  obtain ⟨h1, h2, h3, h4⟩ := h
  unfold next_day
  by_cases hd : d.day < daysInMonth d.year d.month
  · rw [if_pos hd]
    refine ⟨⟨h1, h2, ?_, ?_⟩, ?_⟩
    · show 1 ≤ d.day + 1
      omega
    · show d.day + 1 ≤ daysInMonth d.year d.month
      omega
    · show daysBeforeYear d.year + daysBeforeMonth d.year d.month +
          (d.day + 1 - 1) =
        daysBeforeYear d.year + daysBeforeMonth d.year d.month + (d.day - 1) + 1
      omega
  · rw [if_neg hd]
    by_cases hm : d.month < 12
    · rw [if_pos hm]
      refine ⟨⟨?_, ?_, ?_, ?_⟩, ?_⟩
      · show 1 ≤ d.month + 1
        omega
      · show d.month + 1 ≤ 12
        omega
      · show (1 : Nat) ≤ 1
        omega
      · show 1 ≤ daysInMonth d.year (d.month + 1)
        exact daysInMonth_pos d.year (d.month + 1) (by omega) (by omega)
      · show daysBeforeYear d.year + daysBeforeMonth d.year (d.month + 1) +
            (1 - 1) =
          daysBeforeYear d.year + daysBeforeMonth d.year d.month +
            (d.day - 1) + 1
        have hbm : daysBeforeMonth d.year (d.month + 1) =
            daysBeforeMonth d.year d.month + daysInMonth d.year d.month := rfl
        omega
    · rw [if_neg hm]
      have hm12 : d.month = 12 := by omega
      refine ⟨⟨?_, ?_, ?_, ?_⟩, ?_⟩
      · show (1 : Nat) ≤ 1
        omega
      · show (1 : Nat) ≤ 12
        omega
      · show (1 : Nat) ≤ 1
        omega
      · show 1 ≤ daysInMonth (d.year + 1) 1
        exact daysInMonth_pos (d.year + 1) 1 (by omega) (by omega)
      · show daysBeforeYear (d.year + 1) + daysBeforeMonth (d.year + 1) 1 +
            (1 - 1) =
          daysBeforeYear d.year + daysBeforeMonth d.year d.month +
            (d.day - 1) + 1
        have hy : daysBeforeYear (d.year + 1) =
            daysBeforeYear d.year + daysInYear d.year := rfl
        have h13 := daysBeforeMonth_13 d.year
        have hyr := daysBeforeMonth_year d.year
        have hone : daysBeforeMonth (d.year + 1) 1 = 0 := daysBeforeMonth_one _
        have hdim : daysInMonth d.year 12 = 31 := rfl
        rw [hm12] at h4 hd ⊢
        omega

theorem add_days_spec (d : LocalDT) (h : DateValid d) (n : Nat) :
    DateValid (add_days d n) ∧ toDays (add_days d n) = toDays d + n ∧
      (add_days d n).hour = d.hour ∧ (add_days d n).minute = d.minute ∧
      (add_days d n).second = d.second := by
  induction n with
  | zero => exact ⟨h, rfl, rfl, rfl, rfl⟩
  | succ n ih =>
    obtain ⟨hv, hds, hh, hm, hs⟩ := ih
    obtain ⟨hv2, hds2⟩ := next_day_spec (add_days d n) hv
    obtain ⟨hth, htm, hts⟩ := next_day_time (add_days d n)
    refine ⟨hv2, ?_, ?_, ?_, ?_⟩
    · show toDays (next_day (add_days d n)) = toDays d + (n + 1)
      omega
    · rw [show add_days d (n + 1) = next_day (add_days d n) from rfl, hth, hh]
    · rw [show add_days d (n + 1) = next_day (add_days d n) from rfl, htm, hm]
    · rw [show add_days d (n + 1) = next_day (add_days d n) from rfl, hts, hs]

/-- A later day is a later instant whatever the wall-clock times, because
valid times stay below 86400 seconds. -/
theorem toSecs_lt_of_toDays_lt (a b : LocalDT) (ha : a.hour ≤ 23)
    (hm : a.minute ≤ 59) (hs : a.second ≤ 59)
    (hd : toDays a < toDays b) : toSecs a < toSecs b := by
  unfold toSecs
  omega

/-- `astimezone` preserves the order of instants. -/
theorem toUtcSecs_lt (a b : LocalDT) (off : Int) (h : toSecs a < toSecs b) :
    toUtcSecs a off < toUtcSecs b off := by
  unfold toUtcSecs
  omega

theorem parse_time_ranges (v : String) (h m s : Nat)
    (hp : parse_time v = .ok (h, m, s)) : h ≤ 23 ∧ m ≤ 59 ∧ s ≤ 59 := by
  simp only [parse_time] at hp
  split at hp
  · cases hp
  · split at hp
    · split at hp
      · cases hp
      · rename_i hour minute second hcond
        push_neg at hcond
        injection hp with hp
        injection hp with e1 e23
        injection e23 with e2 e3
        subst e1
        subst e2
        subst e3
        omega
    · cases hp

/-- Rolling to the first day (or any day) of the following month is a
strictly later day than any valid day of the current month. -/
theorem toDays_roll_lt (now : LocalDT) (hdv : DateValid now)
    (d2 hh mm ss : Nat) :
    toDays now < toDays
      { year := (if now.month = 12 then (now.year + 1, 1)
          else (now.year, now.month + 1)).1,
        month := (if now.month = 12 then (now.year + 1, 1)
          else (now.year, now.month + 1)).2,
        day := d2, hour := hh, minute := mm, second := ss } := by
  obtain ⟨h1, h2, h3, h4⟩ := hdv
  by_cases hm12 : now.month = 12
  · rw [if_pos hm12]
    have hy : daysBeforeYear (now.year + 1) =
        daysBeforeYear now.year + daysInYear now.year := rfl
    have h13 := daysBeforeMonth_13 now.year
    have hyr := daysBeforeMonth_year now.year
    have hone : daysBeforeMonth (now.year + 1) 1 = 0 := daysBeforeMonth_one _
    rw [hm12] at h4
    show daysBeforeYear now.year + daysBeforeMonth now.year now.month +
        (now.day - 1) <
      daysBeforeYear (now.year + 1) + daysBeforeMonth (now.year + 1) 1 +
        (d2 - 1)
    rw [hm12]
    omega
  · rw [if_neg hm12]
    have hbm : daysBeforeMonth now.year (now.month + 1) =
        daysBeforeMonth now.year now.month +
          daysInMonth now.year now.month := rfl
    show daysBeforeYear now.year + daysBeforeMonth now.year now.month +
        (now.day - 1) <
      daysBeforeYear now.year + daysBeforeMonth now.year (now.month + 1) +
        (d2 - 1)
    omega

set_option maxRecDepth 2000 in
/-- Claim C9: recurrence validation accepts a weekly task exactly when
`scheduled_day ∈ [0..6]` and a monthly task exactly when
`scheduled_day ∈ [1..31]`; the monthly next-fire computation clamps the
scheduled day to the length of the target month; and every next-fire
instant the computation produces is strictly in the future once converted
from the user's zone to UTC. -/
theorem c9_scheduler_validation_clamp_strictly_future :
    (∀ d : Option Int,
      validate_recurrence_constraints RecurrenceType.weekly d = .ok () ↔
        ∃ v, d = some v ∧ 0 ≤ v ∧ v ≤ 6) ∧
    (∀ d : Option Int,
      validate_recurrence_constraints RecurrenceType.monthly d = .ok () ↔
        ∃ v, d = some v ∧ 1 ≤ v ∧ v ≤ 31) ∧
    (∀ (stime : String) (sd : Option Int) (local_now : LocalDT) (allow : Bool)
       (t : LocalDT),
      next_run_utc RecurrenceType.monthly stime sd local_now allow =
        .ok (some t) →
      ∃ v, sd = some v ∧
        t.day = min v.toNat (daysInMonth t.year t.month)) ∧
    (∀ (rt : RecurrenceType) (stime : String) (sd : Option Int)
       (local_now : LocalDT) (allow : Bool) (t : LocalDT) (off : Int),
      ValidDT local_now →
      next_run_utc rt stime sd local_now allow = .ok (some t) →
      toUtcSecs local_now off < toUtcSecs t off) := by
  refine ⟨?_, ?_, ?_, ?_⟩
  · intro d
    cases d with
    | none => simp [validate_recurrence_constraints]
    | some v =>
      by_cases h : 0 ≤ v ∧ v ≤ 6
      · simp [validate_recurrence_constraints, h, h.1, h.2]
      · simp only [validate_recurrence_constraints, if_pos h, Option.some.injEq]
        constructor
        · intro hok
          cases hok
        · rintro ⟨v2, rfl, hb1, hb2⟩
          exact absurd ⟨hb1, hb2⟩ h
  · intro d
    cases d with
    | none => simp [validate_recurrence_constraints]
    | some v =>
      by_cases h : 1 ≤ v ∧ v ≤ 31
      · simp [validate_recurrence_constraints, h, h.1, h.2]
      · simp only [validate_recurrence_constraints, if_pos h, Option.some.injEq]
        constructor
        · intro hok
          cases hok
        · rintro ⟨v2, rfl, hb1, hb2⟩
          exact absurd ⟨hb1, hb2⟩ h
  · intro stime sd local_now allow t h
    cases hpt : parse_time stime with
    | error e => simp [next_run_utc, hpt] at h
    | ok tri =>
      obtain ⟨hh, mm, ss⟩ := tri
      simp only [next_run_utc, hpt] at h
      split at h
      · cases h
      · rename_i v
        split at h
        · cases h
        · refine ⟨v, rfl, ?_⟩
          split at h
          · injection h with h
            injection h with h
            subst h
            rfl
          · injection h with h
            injection h with h
            subst h
            rfl
  · intro rt stime sd local_now allow t off hval h
    obtain ⟨hmo1, hmo2, hda1, hda2, hho, hmi, hse⟩ := hval
    have hdv : DateValid local_now := ⟨hmo1, hmo2, hda1, hda2⟩
    cases hpt : parse_time stime with
    | error e => simp [next_run_utc, hpt] at h
    | ok tri =>
      obtain ⟨hh, mm, ss⟩ := tri
      apply toUtcSecs_lt
      simp only [next_run_utc, hpt] at h
      split at h
      · by_cases hna : ¬(allow = true)
        · rw [if_pos hna] at h
          cases h
        · rw [if_neg hna] at h
          split at h
          · rename_i hcmp
            rw [Except.ok.injEq, Option.some.injEq] at h
            subst h
            exact hcmp
          · rename_i hcmp
            rw [Except.ok.injEq, Option.some.injEq] at h
            subst h
            obtain ⟨-, hd2, -, -, -⟩ :=
              add_days_spec (replace_time local_now hh mm ss) hdv 1
            apply toSecs_lt_of_toDays_lt _ _ hho hmi hse
            rw [hd2, toDays_replace_time]
            omega
      · split at h
        · rename_i hcmp
          rw [Except.ok.injEq, Option.some.injEq] at h
          subst h
          exact hcmp
        · rename_i hcmp
          rw [Except.ok.injEq, Option.some.injEq] at h
          subst h
          obtain ⟨-, hd2, -, -, -⟩ :=
            add_days_spec (replace_time local_now hh mm ss) hdv 1
          apply toSecs_lt_of_toDays_lt _ _ hho hmi hse
          rw [hd2, toDays_replace_time]
          omega
      · split at h
        · cases h
        · rename_i v
          split at h
          · cases h
          · obtain ⟨hvk, hdk, -, -, -⟩ := add_days_spec local_now hdv
              ((v - (weekday local_now : Int)) % 7).toNat
            split at h
            · rename_i hcmp
              rw [Except.ok.injEq, Option.some.injEq] at h
              subst h
              exact hcmp
            · rename_i hcmp
              rw [Except.ok.injEq, Option.some.injEq] at h
              subst h
              obtain ⟨-, hd7, -, -, -⟩ := add_days_spec
                (replace_time (add_days local_now
                  ((v - (weekday local_now : Int)) % 7).toNat) hh mm ss) hvk 7
              apply toSecs_lt_of_toDays_lt _ _ hho hmi hse
              rw [hd7, toDays_replace_time, hdk]
              omega
      · split at h
        · cases h
        · rename_i v
          split at h
          · cases h
          · split at h
            · rename_i hcmp
              rw [Except.ok.injEq, Option.some.injEq] at h
              subst h
              apply toSecs_lt_of_toDays_lt _ _ hho hmi hse
              exact toDays_roll_lt local_now hdv _ hh mm ss
            · rename_i hcmp
              rw [Except.ok.injEq, Option.some.injEq] at h
              subst h
              omega

/-- Witness for C9: a daily task scheduled for 09:30 computed at
year 2, Jan 1, 10:00 local time fires the next morning — a strictly
future UTC instant (offset +3600 s). -/
theorem c9_witness :
    ValidDT { year := 2, month := 1, day := 1, hour := 10, minute := 0, second := 0 } ∧
    next_run_utc RecurrenceType.daily "09:30" none
        { year := 2, month := 1, day := 1, hour := 10, minute := 0, second := 0 } true =
      .ok (some { year := 2, month := 1, day := 2, hour := 9, minute := 30, second := 0 }) ∧
    toUtcSecs { year := 2, month := 1, day := 1, hour := 10, minute := 0, second := 0 } 3600 <
      toUtcSecs { year := 2, month := 1, day := 2, hour := 9, minute := 30, second := 0 } 3600 :=
  ⟨by decide, by rfl,
    c9_scheduler_validation_clamp_strictly_future.2.2.2
      RecurrenceType.daily "09:30" none
      { year := 2, month := 1, day := 1, hour := 10, minute := 0, second := 0 }
      true
      { year := 2, month := 1, day := 2, hour := 9, minute := 30, second := 0 }
      3600 (by decide) (by rfl)⟩

end Claudex
